import Mathlib

/-!
Verification of the Zava synthetic retail-dataset generator.

The repository contains two generator variants:
* `src/data/src/zava_shop_datagenerator/__main__.py` — the SQLAlchemy/ORM
  generator, embedded below in namespace `datagen`;
* `src/data/data_prep/generate_zava_sqlite.py` — the legacy raw-SQLite
  generator, embedded below in namespace `dataprep`.

Modelling conventions:
* Python floats and `round(x, 2)` are modelled over `ℚ` with exact
  arithmetic and decimal round-half-to-even (`round2`).
* SQLite AUTOINCREMENT primary keys on a freshly created database are
  modelled as sequential ids 1, 2, 3, … in insertion order.
* Python dicts built by comprehension are modelled via `List.find?` on the
  reversed association list (later entries overwrite earlier ones).
* Every call into Python's global `random` module is modelled as reading a
  value from an explicit oracle (`RandomState` / draw arguments); the
  oracles are the only source of run-to-run variation.
* Operations that would raise in Python (`random.choice` on an empty list,
  division by zero) are modelled with `Option` or guarded by the
  nonemptiness hypotheses under which a generation run completes.
* Fatal validation aborts (missing `rls_user_id`), order dates, phone
  numbers, supplier address/contact columns and embedding JSON
  serialization are opaque to every claim checked here and are not part of
  the embedded state.
-/

/-- Decimal round-half-to-even of a rational to an integer, the rounding
mode of Python's builtin `round`. -/
def roundHalfEven (q : ℚ) : ℤ :=
  let f : ℤ := ⌊q⌋
  if q - f < 1/2 then f
  else if q - f > 1/2 then f + 1
  else if f % 2 = 0 then f else f + 1

/-- Python `round(x, 2)`: round to two decimal places, ties to even. -/
def round2 (q : ℚ) : ℚ := (roundHalfEven (q * 100) : ℚ) / 100

/-- Python division, which raises `ZeroDivisionError` on a zero
denominator (modelled as `none`). -/
def pydiv (a b : ℚ) : Option ℚ := if b = 0 then none else some (a / b)

/-- Python `random.randint(lo, hi)` (inclusive bounds): the oracle draw `r`
selects a value in `[lo, hi]`. -/
def pyRandint (lo hi : ℕ) (r : ℕ) : ℕ := lo + r % (hi + 1 - lo)

/-- Python `random.choice(l)`: the oracle draw `r` selects an element.
`random.choice` raises on an empty list; there the default is never
observed by any completed run. -/
def pyChoice [Inhabited α] (l : List α) (r : ℕ) : α := l.getD (r % l.length) default

/-- Python `random.choices(l, weights=w, k=1)[0]`: the oracle draw `r`
selects an element of `l`. The weights shape the distribution only, which
no claim examined here quantifies over. -/
def pyChoices [Inhabited α] (l : List α) (w : List ℚ) (r : ℕ) : α :=
  l.getD (r % l.length) default

/-- Insertion of an element into a list sorted by `le` (helper for
modelling Python's `sorted`). -/
def sortInsert (le : α → α → Bool) (a : α) : List α → List α
  | [] => [a]
  | b :: l => if le a b then a :: b :: l else b :: sortInsert le a l

/-- Python `sorted` (insertion sort; only the multiset of elements matters
to the claims below). -/
def pySorted (le : α → α → Bool) : List α → List α
  | [] => []
  | a :: l => sortInsert le a (pySorted le l)

/-- The character for a decimal digit (only applied to values below 10). -/
def digitChar : ℕ → Char
  | 0 => '0'
  | 1 => '1'
  | 2 => '2'
  | 3 => '3'
  | 4 => '4'
  | 5 => '5'
  | 6 => '6'
  | 7 => '7'
  | 8 => '8'
  | _ => '9'

/-- The digit value of a decimal digit character. -/
def charToDigit (c : Char) : ℕ := c.toNat - 48

/-- Python `str(n)` for a natural number: decimal digit characters. -/
def decimalChars (n : ℕ) : List Char :=
  if n = 0 then ['0']
  else ((Nat.digits 10 n).map digitChar).reverse

/-- Python `str(n)` as a string. -/
def natStr (n : ℕ) : String := ⟨decimalChars n⟩

/-- Python `str.lower()` (character-wise; the exact case mapping is
irrelevant to the claims below). -/
def pyLower (s : String) : String := ⟨s.data.map Char.toLower⟩

/-- Python `.replace(a, b)` is used in the source only to strip single
quotes from faker names; modelled as removing the quote character
(codepoint 39). -/
def stripQuotes (s : String) : String := ⟨s.data.filter (fun c => c.val ≠ 39)⟩

/-- The maximal digit suffix of a character list. -/
def digitSuffix (l : List Char) : List Char :=
  (l.reverse.takeWhile Char.isDigit).reverse

/-! ## Reference data (loaded JSON documents)

These mirror the already-parsed JSON mappings that the generators read at
start-up (`stores_reference.json`, `product_data.json`,
`supplier_data.json`, `reference_data.json`); CLI parsing and file loading
are out of scope per the spec. -/

/-- One store configuration from `stores_reference.json` (the `stores`
mapping of the ORM generator). The dict key (reference store id) is used
only for iteration and is modelled by list position. -/
structure StoreConfig where
  store_name : String
  rls_user_id : String
  is_online : Bool
  customer_distribution_weight : ℚ
  product_skus : Option (List String)
deriving DecidableEq

/-- One product catalog entry from `product_data.json` (`products` list of
the ORM generator). Fields not read by any claim-relevant code path
(image path, embeddings payload contents) are kept abstract or omitted. -/
structure CatalogEntry where
  sku : String
  name : String
  category : String
  subcategory : String
  price : ℚ
  description : String
  supplier_id : ℤ
  stock_level : Option ℕ
  minimum_order_quantity : Option ℕ
  image_embedding : Option (List ℚ)
  description_embedding : Option (List ℚ)
deriving DecidableEq

/-- One supplier entry from `supplier_data.json`. Contact/address/contract
columns are opaque to every claim and omitted. -/
structure SupplierEntry where
  supplier_id : ℤ
  supplier_name : String
  lead_time_days : ℕ
deriving DecidableEq

/-! ## Database rows (ORM models / CREATE TABLE schema) -/

structure StoreRow where
  store_id : ℕ
  store_name : String
  rls_user_id : String
  is_online : Bool
deriving DecidableEq, Inhabited

structure CategoryRow where
  category_id : ℕ
  category_name : String
deriving DecidableEq, Inhabited

structure ProductTypeRow where
  type_id : ℕ
  category_id : ℕ
  type_name : String
deriving DecidableEq, Inhabited

structure SupplierRow where
  supplier_id : ℤ
  supplier_name : String
  lead_time_days : ℕ
deriving DecidableEq, Inhabited

structure SupplierPerformanceRow where
  supplier_id : ℤ
  cost_score : ℚ
  quality_score : ℚ
  delivery_score : ℚ
  compliance_score : ℚ
  overall_score : ℚ
deriving DecidableEq

structure InventoryRow where
  store_id : ℕ
  product_id : ℕ
  stock_level : ℕ
deriving DecidableEq

namespace datagen

/-! Embedding of `src/data/src/zava_shop_datagenerator/__main__.py`
(the SQLAlchemy ORM generator). -/

structure ProductRow where
  product_id : ℕ
  sku : String
  category_id : ℕ
  type_id : ℕ
  supplier_id : ℤ
  cost : ℚ
  base_price : ℚ
deriving DecidableEq, Inhabited

structure CustomerRow where
  customer_id : ℕ
  email : String
  primary_store_id : ℕ
deriving DecidableEq

structure OrderRow where
  order_id : ℕ
  customer_id : ℕ
  store_id : ℕ
deriving DecidableEq

structure OrderItemRow where
  order_id : ℕ
  store_id : ℕ
  product_id : ℕ
  quantity : ℕ
  unit_price : ℚ
  discount_percent : ℚ
  discount_amount : ℚ
  total_amount : ℚ
deriving DecidableEq

/-- Names and store-choice draw consumed per customer iteration:
`fake.first_name()`, `fake.last_name()`, and the `random.choices` draw
inside `weighted_store_choice` (the phone-number draws are opaque to every
claim). -/
structure CustomerDraw where
  first_name : String
  last_name : String
  store_choice : ℕ

/-- The per-evaluation draws of `insert_suppliers`:
`random.uniform` base and jitter for the four component scores. -/
structure EvalDraws where
  base_cost : ℚ
  base_quality : ℚ
  base_delivery : ℚ
  base_compliance : ℚ
  jit_cost : ℚ
  jit_quality : ℚ
  jit_delivery : ℚ
  jit_compliance : ℚ

/-- Oracle for every call the ORM generator makes into Python's global
`random`; indexed by the loop positions at the corresponding call sites. -/
structure RandomState where
  customer_draw : ℕ → CustomerDraw
  order_customer_choice : ℕ → ℕ
  order_store_choice : ℕ → ℕ
  item_store_choice : ℕ → ℕ
  item_count : ℕ → ℕ
  item_product_choice : ℕ → ℕ → ℕ
  item_quantity : ℕ → ℕ → ℕ
  item_discount_choice : ℕ → ℕ → ℕ
  perf_count : ℤ → ℕ
  perf_draws : ℤ → ℕ → EvalDraws

/-- `weighted_store_choice`: weighted choice over the reference stores,
returning the chosen store's `store_name`. -/
def weighted_store_choice (stores : List StoreConfig) (r : ℕ) : String :=
  (pyChoices (stores.map (·.store_name))
    (stores.map (·.customer_distribution_weight)) r)

/-- `insert_stores`: one row per reference store, AUTOINCREMENT ids
1, 2, … in iteration order. (The fatal check on an empty `rls_user_id`
aborts the run and is claim-irrelevant.) -/
def insert_stores (stores : List StoreConfig) : List StoreRow :=
  (stores.enumFrom 1).map (fun p =>
    { store_id := p.1, store_name := p.2.store_name,
      rls_user_id := p.2.rls_user_id, is_online := p.2.is_online })

/-- `insert_categories`: `sorted(set(...))` of the catalog categories. -/
def insert_categories (products_list : List CatalogEntry) : List CategoryRow :=
  ((pySorted (fun a b => a ≤ b) (products_list.map (·.category)).dedup).enumFrom 1).map
    (fun p => { category_id := p.1, category_name := p.2 })

/-- Dict lookup `category_mapping[name]` built from the categories table
(later dict entries overwrite earlier ones). -/
def category_mapping (categories : List CategoryRow) (name : String) : Option ℕ :=
  (categories.reverse.find? (·.category_name = name)).map (·.category_id)

/-- Lexicographic order on (category, subcategory) pairs, as Python
`sorted` compares tuples of strings. -/
def pairLe (a b : String × String) : Bool :=
  a.1 < b.1 || (a.1 = b.1 && a.2 ≤ b.2)

/-- `insert_product_types`: one row per distinct (category, subcategory)
pair of the catalog, in sorted order. In the source a category missing
from the categories table raises `KeyError`; since the two stages read the
same catalog this is unreachable, and the model skips such a pair. -/
def insert_product_types (products_list : List CatalogEntry)
    (categories : List CategoryRow) : List ProductTypeRow :=
  let type_set := (products_list.map (fun p => (p.category, p.subcategory))).dedup
  (((pySorted pairLe type_set).filterMap (fun cs =>
      (category_mapping categories cs.1).map (fun cid => (cid, cs.2)))).enumFrom 1).map
    (fun p => { type_id := p.1, category_id := p.2.1, type_name := p.2.2 })

/-- `insert_suppliers` (supplier rows only): one row per supplier entry,
with the explicit `supplier_id` from the JSON (not AUTOINCREMENT). -/
def insert_suppliers (supplier_data : List SupplierEntry) : List SupplierRow :=
  supplier_data.map (fun s =>
    { supplier_id := s.supplier_id, supplier_name := s.supplier_name,
      lead_time_days := s.lead_time_days })

/-- Dict lookup `type_mapping[(category_id, type_name)]` built from the
product-types table. -/
def type_mapping (product_types : List ProductTypeRow) (cid : ℕ) (sub : String) : Option ℕ :=
  (product_types.reverse.find? (fun t => t.category_id = cid && t.type_name = sub)).map (·.type_id)

/-- The body of the `insert_products` loop for one catalog entry: resolve
category and type (the type lookup is guarded: `continue` on failure),
take the JSON price as `base_price`, compute
`cost = round(base_price * 0.67, 2)`, and carry `supplier_id` through. -/
def resolveProduct (categories : List CategoryRow) (product_types : List ProductTypeRow)
    (product : CatalogEntry) : Option (String × ℕ × ℕ × ℤ × ℚ × ℚ) :=
  match category_mapping categories product.category with
  | none => none
  | some category_id =>
    match type_mapping product_types category_id product.subcategory with
    | none => none
    | some type_id =>
      let base_price := product.price
      let cost := round2 (base_price * (67/100))
      some (product.sku, category_id, type_id, product.supplier_id, cost, base_price)

/-- `insert_products`: kept entries receive AUTOINCREMENT ids 1, 2, … in
catalog order. -/
def insert_products (products_list : List CatalogEntry) (categories : List CategoryRow)
    (product_types : List ProductTypeRow) : List ProductRow :=
  ((products_list.filterMap (resolveProduct categories product_types)).enumFrom 1).map
    (fun p =>
      { product_id := p.1, sku := p.2.1, category_id := p.2.2.1, type_id := p.2.2.2.1,
        supplier_id := p.2.2.2.2.1, cost := p.2.2.2.2.2.1, base_price := p.2.2.2.2.2.2 })

/-- The email built for customer number `i`:
`f"{first_name.lower()}.{last_name.lower()}.{i}@example.com"` where the
names already had single quotes stripped. -/
def mkEmail (first_name last_name : String) (i : ℕ) : String :=
  pyLower first_name ++ "." ++ pyLower last_name ++ "." ++ natStr i ++ "@example.com"

/-- Dict lookup `store_name_to_id.get(name)` built from the stores table. -/
def store_name_to_id (stores_in_db : List StoreRow) (name : String) : Option ℕ :=
  (stores_in_db.reverse.find? (·.store_name = name)).map (·.store_id)

/-- `insert_customers`: customers `i = 1 .. num_customers`, email with the
running sequence number, and
`primary_store_id = store_name_to_id.get(preferred, stores_in_db[0].store_id)`
(fallback to the first store on a failed lookup; the stage raised earlier
if the store table was empty). -/
def insert_customers (stores : List StoreConfig) (stores_in_db : List StoreRow)
    (draws : ℕ → CustomerDraw) (num_customers : ℕ) : List CustomerRow :=
  (List.range' 1 num_customers).map (fun i =>
    let d := draws i
    let first_name := stripQuotes d.first_name
    let last_name := stripQuotes d.last_name
    let email := mkEmail first_name last_name i
    let preferred := weighted_store_choice stores d.store_choice
    let primary_store_id :=
      (store_name_to_id stores_in_db preferred).getD (stores_in_db.headI.store_id)
    { customer_id := i, email := email, primary_store_id := primary_store_id })

/-- Dict lookup `sku_to_product_id.get(sku)` built from the products
table. -/
def sku_to_product_id (products_in_db : List ProductRow) (sku : String) : Option ℕ :=
  (products_in_db.reverse.find? (·.sku = sku)).map (·.product_id)

/-- Dict lookup `sku_to_stock_level.get(sku, 25)` where the dict maps each
catalog sku to `product.get("stock_level", 25)`. -/
def sku_to_stock_level (products_list : List CatalogEntry) (sku : String) : ℕ :=
  ((products_list.reverse.find? (·.sku = sku)).map (fun p => p.stock_level.getD 25)).getD 25

/-- `insert_inventory`: for each reference store, for each sku on its
`product_skus` list (default `[]`), a row with the stock level taken from
the per-sku catalog hint (default 25); skus that do not resolve to a
product id, and stores that do not resolve to a db store id, are
skipped. -/
def insert_inventory (stores : List StoreConfig) (stores_in_db : List StoreRow)
    (products_in_db : List ProductRow) (products_list : List CatalogEntry) :
    List InventoryRow :=
  stores.bind (fun store_config =>
    match store_name_to_id stores_in_db store_config.store_name with
    | none => []
    | some db_store_id =>
      (store_config.product_skus.getD []).filterMap (fun sku =>
        (sku_to_product_id products_in_db sku).map (fun product_id =>
          { store_id := db_store_id, product_id := product_id,
            stock_level := sku_to_stock_level products_list sku })))

/-- `insert_orders_and_items`: `num_orders` orders with random customer
and store; items are then created per queried-back order id (1–5 items,
`unit_price = float(base_price)`, discount percent from
`[0, 0, 0, 5, 10, 15]`,
`discount_amount = round(unit_price*quantity*discount_percent/100, 2)`,
`total_amount = round(unit_price*quantity - discount_amount, 2)`). -/
def insert_orders_and_items (rng : RandomState) (customers : List CustomerRow)
    (stores_in_db : List StoreRow) (products_in_db : List ProductRow)
    (num_orders : ℕ) : List OrderRow × List OrderItemRow :=
  let customer_ids := customers.map (·.customer_id)
  let store_ids := stores_in_db.map (·.store_id)
  let product_list := products_in_db.map (fun p => (p.product_id, p.base_price))
  let orders := (List.range num_orders).map (fun i =>
    { order_id := i + 1,
      customer_id := pyChoice customer_ids (rng.order_customer_choice i),
      store_id := pyChoice store_ids (rng.order_store_choice i) : OrderRow })
  let order_ids := orders.map (·.order_id)
  let items := order_ids.bind (fun oid =>
    let store_id := pyChoice store_ids (rng.item_store_choice oid)
    (List.range (pyRandint 1 5 (rng.item_count oid))).map (fun j =>
      let pb := pyChoice product_list (rng.item_product_choice oid j)
      let quantity := pyRandint 1 10 (rng.item_quantity oid j)
      let unit_price := pb.2
      let discount_percent : ℚ :=
        pyChoice [0, 0, 0, 5, 10, 15] (rng.item_discount_choice oid j)
      let discount_amount := round2 (unit_price * quantity * discount_percent / 100)
      let total_amount := round2 (unit_price * quantity - discount_amount)
      { order_id := oid, store_id := store_id, product_id := pb.1,
        quantity := quantity, unit_price := unit_price,
        discount_percent := discount_percent, discount_amount := discount_amount,
        total_amount := total_amount }))
  (orders, items)

/-- `max(1.0, min(5.0, x))`. -/
def clampScore (q : ℚ) : ℚ := max 1 (min 5 q)

/-- One `SupplierPerformance` row of `insert_suppliers`: each component
score is a clamped base-plus-jitter draw and the overall score is the
fixed weighted combination. -/
def mkSupplierPerformance (sid : ℤ) (d : EvalDraws) : SupplierPerformanceRow :=
  let cost_score := clampScore (d.base_cost + d.jit_cost)
  let quality_score := clampScore (d.base_quality + d.jit_quality)
  let delivery_score := clampScore (d.base_delivery + d.jit_delivery)
  let compliance_score := clampScore (d.base_compliance + d.jit_compliance)
  { supplier_id := sid,
    cost_score := cost_score, quality_score := quality_score,
    delivery_score := delivery_score, compliance_score := compliance_score,
    overall_score := cost_score * (3/10) + quality_score * (3/10) +
      delivery_score * (1/4) + compliance_score * (3/20) }

/-- The supplier-performance part of `insert_suppliers`:
`range(0, random.randint(3, 7))` evaluations per supplier row. -/
def insert_supplier_performance (suppliers : List SupplierRow) (rng : RandomState) :
    List SupplierPerformanceRow :=
  suppliers.bind (fun s =>
    (List.range (pyRandint 3 7 (rng.perf_count s.supplier_id))).map (fun m =>
      mkSupplierPerformance s.supplier_id (rng.perf_draws s.supplier_id m)))

/-- The populated database state after a full ORM generation run. -/
structure Database where
  stores : List StoreRow
  categories : List CategoryRow
  product_types : List ProductTypeRow
  suppliers : List SupplierRow
  supplier_performance : List SupplierPerformanceRow
  products : List ProductRow
  customers : List CustomerRow
  inventory : List InventoryRow
  orders : List OrderRow
  order_items : List OrderItemRow
deriving DecidableEq

/-- `main()` generation path: the ordered stage pipeline against a fresh
storage file (embeddings and agent-support stages carry no claim-relevant
state of this variant). -/
def generate_database (stores_cfg : List StoreConfig) (products_list : List CatalogEntry)
    (supplier_data : List SupplierEntry) (rng : RandomState)
    (num_customers num_orders : ℕ) : Database :=
  let stores := insert_stores stores_cfg
  let categories := insert_categories products_list
  let product_types := insert_product_types products_list categories
  let suppliers := insert_suppliers supplier_data
  let supplier_performance := insert_supplier_performance suppliers rng
  let products := insert_products products_list categories product_types
  let customers := insert_customers stores_cfg stores rng.customer_draw num_customers
  let inventory := insert_inventory stores_cfg stores products products_list
  let oi := insert_orders_and_items rng customers stores products num_orders
  { stores := stores, categories := categories, product_types := product_types,
    suppliers := suppliers, supplier_performance := supplier_performance,
    products := products, customers := customers, inventory := inventory,
    orders := oi.1, order_items := oi.2 }

/-- The observation of `test_reproducibility.py`: the joined
`(store_name, sku, stock_level)` triples of the inventory table. -/
def inventorySignature (db : Database) : List (String × String × ℕ) :=
  db.inventory.filterMap (fun r =>
    match db.stores.find? (·.store_id = r.store_id),
          db.products.find? (·.product_id = r.product_id) with
    | some s, some p => some (s.store_name, p.sku, r.stock_level)
    | _, _ => none)

/-- The set of skus that have an inventory row for the store named
`store_name` (join through the stores and products tables). -/
def storeInventorySkus (stores_in_db : List StoreRow) (products_in_db : List ProductRow)
    (inventory : List InventoryRow) (store_name : String) : List String :=
  match store_name_to_id stores_in_db store_name with
  | none => []
  | some sid =>
    (inventory.filter (·.store_id = sid)).filterMap (fun r =>
      (products_in_db.find? (·.product_id = r.product_id)).map (·.sku))

end datagen

namespace dataprep

/-! Embedding of `src/data/data_prep/generate_zava_sqlite.py`
(the legacy raw-SQLite generator). -/

/-- One store configuration from `reference_data.json`: the dict is keyed
by store NAME in this variant. -/
structure StoreConfig where
  store_name : String
  rls_user_id : String
  customer_distribution_weight : ℚ
deriving DecidableEq

/-- One product entry inside a subcategory list of
`product_data.json["main_categories"]`; `sku` and the description
embedding are optional keys. -/
structure LegacyProduct where
  name : String
  sku : Option String
  price : ℚ
  description : String
  description_embedding : Option (List ℚ)
deriving DecidableEq

/-- A subcategory value of `main_categories[cat]`: either a product list
or the `washington_seasonal_multipliers` dict (the only non-list value in
the shipped data, filtered by `isinstance(products, list)`). -/
inductive SubcatData where
  | products (l : List LegacyProduct)
  | multipliers (m : List (String × ℚ))
deriving DecidableEq

/-- `product_data.json["main_categories"]`: category → subcategory →
data, in JSON order. -/
abbrev MainCategories := List (String × List (String × SubcatData))

structure ProductRow where
  product_id : ℕ
  sku : String
  product_name : String
  category_id : ℕ
  type_id : ℕ
  cost : ℚ
  base_price : ℚ
deriving DecidableEq, Inhabited

structure CustomerRow where
  customer_id : ℕ
  email : String
  primary_store_id : Option ℕ
deriving DecidableEq

structure OrderRow where
  order_id : ℕ
  customer_id : ℕ
  store_id : Option ℕ
deriving DecidableEq, Inhabited

structure OrderItemRow where
  order_id : ℕ
  store_id : Option ℕ
  product_id : ℕ
  quantity : ℕ
  unit_price : ℚ
  discount_percent : ℚ
  discount_amount : ℚ
  total_amount : ℚ
deriving DecidableEq

structure EmbeddingRow where
  product_id : ℕ
  description_embedding : List ℚ
deriving DecidableEq

/-- Oracle for every call the legacy generator makes into Python's global
`random`, indexed by the loop positions at the corresponding call
sites. -/
structure RandomState where
  customer_first : ℕ → String
  customer_last : ℕ → String
  customer_store_choice : ℕ → ℕ
  stock_draw : ℕ → ℕ → ℕ
  order_count_choice : ℕ → ℕ
  order_store_choice : ℕ → ℕ → ℕ
  item_count_choice : ℕ → ℕ
  item_product_choice : ℕ → ℕ → ℕ
  item_quantity_choice : ℕ → ℕ → ℕ
  item_price_jitter : ℕ → ℕ → ℚ
  item_discount_roll : ℕ → ℕ → ℚ
  item_discount_choice : ℕ → ℕ → ℕ

/-- `"online" in store_name.lower()`. -/
def isOnlineName (name : String) : Bool := ((pyLower name).splitOn "online").length > 1

/-- `weighted_store_choice`: weighted choice over the reference store
names (the dict keys). -/
def weighted_store_choice (stores : List StoreConfig) (r : ℕ) : String :=
  pyChoices (stores.map (·.store_name)) (stores.map (·.customer_distribution_weight)) r

/-- `insert_stores`: one row per reference store; `is_online` is derived
from the name. (The fatal check on a missing `rls_user_id` aborts the run
and is claim-irrelevant.) -/
def insert_stores (stores : List StoreConfig) : List StoreRow :=
  (stores.enumFrom 1).map (fun p =>
    { store_id := p.1, store_name := p.2.store_name,
      rls_user_id := p.2.rls_user_id, is_online := isOnlineName p.2.store_name })

/-- Python `.replace("'", "''")`: the legacy variant doubles single quotes
in faker names. -/
def escapeQuotes (s : String) : String :=
  ⟨s.data.bind (fun c => if c.val = 39 then [c, c] else [c])⟩

/-- The first-match store lookup loop of the legacy variant
(`for store_id, store_name in store_rows: ... break`), `None` when no row
matches. -/
def store_lookup (store_rows : List StoreRow) (name : String) : Option ℕ :=
  (store_rows.find? (·.store_name = name)).map (·.store_id)

/-- `insert_customers`: customers `i = 1 .. num_customers`; the primary
store reference stays `None` when the weighted choice resolves to no row
of the stores table. -/
def insert_customers (stores : List StoreConfig) (store_rows : List StoreRow)
    (rng : RandomState) (num_customers : ℕ) : List CustomerRow :=
  (List.range' 1 num_customers).map (fun i =>
    let first_name := escapeQuotes (rng.customer_first i)
    let last_name := escapeQuotes (rng.customer_last i)
    let email := datagen.mkEmail first_name last_name i
    let preferred := weighted_store_choice stores (rng.customer_store_choice i)
    { customer_id := i, email := email,
      primary_store_id := store_lookup store_rows preferred })

/-- `insert_categories`: the keys of `main_categories`, in order. -/
def insert_categories (main_categories : MainCategories) : List CategoryRow :=
  ((main_categories.map (·.1)).enumFrom 1).map
    (fun p => { category_id := p.1, category_name := p.2 })

/-- The reserved subcategory key holding seasonal multipliers instead of
a product list. -/
def seasonalKey : String := "washington_seasonal_multipliers"

/-- `insert_product_types`: one row per (category, subcategory) key pair,
skipping the seasonal-multiplier key. A category missing from the
categories table would raise `KeyError`; both stages read the same
`main_categories`, so the model skips that unreachable case. -/
def insert_product_types (main_categories : MainCategories)
    (categories : List CategoryRow) : List ProductTypeRow :=
  ((main_categories.bind (fun cs =>
      match datagen.category_mapping categories cs.1 with
      | none => []
      | some cid =>
        cs.2.filterMap (fun sd =>
          if sd.1 = seasonalKey then none else some (cid, sd.1)))).enumFrom 1).map
    (fun p => { type_id := p.1, category_id := p.2.1, type_name := p.2.2 })

/-- `f"SKU{n:06d}"`: the generated fallback sku for a catalog product
without an explicit `sku` key. -/
def genSku (n : ℕ) : String :=
  "SKU" ++ ⟨List.replicate (6 - (decimalChars n).length) (Char.ofNat 48) ++ decimalChars n⟩

/-- The flattened `(category, subcategory, product)` iteration of
`insert_products`: subcategories equal to the seasonal key or with an
empty product list are skipped. -/
def productIteration (main_categories : MainCategories) :
    List (String × String × LegacyProduct) :=
  main_categories.bind (fun cs =>
    cs.2.bind (fun sd =>
      match sd.2 with
      | SubcatData.products l =>
        if sd.1 = seasonalKey ∨ l = [] then []
        else l.map (fun p => (cs.1, sd.1, p))
      | SubcatData.multipliers _ => []))

/-- One step of the `insert_products` collection loop: resolve category
and type (`continue` on a failed type lookup), default a missing sku to
`f"SKU{len(products_data) + 1:06d}"`, store the JSON price as COST, and
set `base_price = round(cost / 0.67, 2)`. -/
def collectStep (categories : List CategoryRow) (product_types : List ProductTypeRow)
    (acc : List (String × String × ℕ × ℕ × ℚ × ℚ))
    (csp : String × String × LegacyProduct) :
    List (String × String × ℕ × ℕ × ℚ × ℚ) :=
  match datagen.category_mapping categories csp.1 with
  | none => acc
  | some category_id =>
    match datagen.type_mapping product_types category_id csp.2.1 with
    | none => acc
    | some type_id =>
      let product_details := csp.2.2
      let sku := product_details.sku.getD (genSku (acc.length + 1))
      let cost := product_details.price
      let base_price := round2 (cost / (67/100))
      acc ++ [(sku, product_details.name, category_id, type_id, cost, base_price)]

/-- The `products_data` tuple list built by `insert_products`. -/
def collectProducts (main_categories : MainCategories) (categories : List CategoryRow)
    (product_types : List ProductTypeRow) :
    List (String × String × ℕ × ℕ × ℚ × ℚ) :=
  (productIteration main_categories).foldl (collectStep categories product_types) []

/-- `insert_products`: AUTOINCREMENT ids 1, 2, … over the collected
tuples. -/
def insert_products (main_categories : MainCategories) (categories : List CategoryRow)
    (product_types : List ProductTypeRow) : List ProductRow :=
  ((collectProducts main_categories categories product_types).enumFrom 1).map
    (fun p =>
      { product_id := p.1, sku := p.2.1, product_name := p.2.2.1,
        category_id := p.2.2.2.1, type_id := p.2.2.2.2.1,
        cost := p.2.2.2.2.2.1, base_price := p.2.2.2.2.2.2 })

/-- The truthiness test of the embeddings extraction loop: keep a product
when its `sku` and `description_embedding` are both truthy (present, and
neither the empty string nor the empty list). -/
def extractEmbedding (p : LegacyProduct) : Option (String × List ℚ) :=
  match p.sku, p.description_embedding with
  | some sku, some emb => if sku = "" ∨ emb = [] then none else some (sku, emb)
  | _, _ => none

/-- The `products_with_embeddings` extraction of
`populate_product_description_embeddings`: entries whose subcategory
value is a list and which pass the truthiness test. -/
def productsWithEmbeddings (main_categories : MainCategories) :
    List (String × List ℚ) :=
  main_categories.bind (fun cs =>
    cs.2.bind (fun sd =>
      match sd.2 with
      | SubcatData.products l => l.filterMap extractEmbedding
      | SubcatData.multipliers _ => []))

/-- The embedding rows actually inserted: entries whose sku matches a row
of the products table (first match of `SELECT ... WHERE sku = ?`);
non-matching entries are counted as skipped. -/
def resolvedEmbeddings (main_categories : MainCategories)
    (products_in_db : List ProductRow) : List EmbeddingRow :=
  (productsWithEmbeddings main_categories).filterMap (fun se =>
    (products_in_db.find? (·.sku = se.1)).map (fun p =>
      { product_id := p.product_id, description_embedding := se.2 }))

/-- `populate_product_description_embeddings(conn, clear_existing)`: with
`clear_existing` all prior rows are deleted first, then one row is
inserted per resolvable embedding entry. -/
def populate_product_description_embeddings (main_categories : MainCategories)
    (products_in_db : List ProductRow) (clear_existing : Bool)
    (prior : List EmbeddingRow) : List EmbeddingRow :=
  (if clear_existing then [] else prior) ++
    resolvedEmbeddings main_categories products_in_db

/-- `insert_inventory`: the full cross product of store ids and product
ids with a freely random stock level `randint(10, 200)` per pair. -/
def insert_inventory (store_rows : List StoreRow) (product_rows : List ProductRow)
    (rng : RandomState) : List InventoryRow :=
  store_rows.bind (fun s =>
    product_rows.map (fun p =>
      { store_id := s.store_id, product_id := p.product_id,
        stock_level := pyRandint 10 200 (rng.stock_draw s.store_id p.product_id) }))

/-- `product_prices[product_id]`: dict lookup over the products table
(always found; the ids come from the same table). -/
def product_price (product_rows : List ProductRow) (pid : ℕ) : ℚ :=
  ((product_rows.reverse.find? (·.product_id = pid)).map (·.base_price)).getD 0

/-- `insert_orders`: per customer `1 .. num_customers` a weighted order
count from `[0..5]`; order ids are assigned by the manual counter starting
at 1, which coincides with AUTOINCREMENT on the fresh database. Items:
weighted 1–5 per order, `unit_price = base_price * uniform(0.8, 1.2)`,
discount with probability 0.15 from `[5, 10, 15, 20, 25]`, and
`total_amount = unit_price*quantity - discount_amount` with NO rounding. -/
def insert_orders (rng : RandomState) (num_customers : ℕ)
    (product_rows : List ProductRow) (stores : List StoreConfig)
    (store_rows : List StoreRow) : List OrderRow × List OrderItemRow :=
  let product_ids := product_rows.map (·.product_id)
  let perCustomer := (List.range' 1 num_customers).bind (fun cid =>
    (List.range (pyChoices [0, 1, 2, 3, 4, 5] [20, 40, 20, 10, 7, 3]
        (rng.order_count_choice cid))).map (fun k => (cid, k)))
  let orders := (perCustomer.enumFrom 1).map (fun p =>
    let preferred := weighted_store_choice stores (rng.order_store_choice p.2.1 p.2.2)
    { order_id := p.1, customer_id := p.2.1,
      store_id := store_lookup store_rows preferred : OrderRow })
  let items := orders.bind (fun o =>
    (List.range (pyChoices [1, 2, 3, 4, 5] [40, 30, 15, 10, 5]
        (rng.item_count_choice o.order_id))).map (fun j =>
      let product_id := pyChoice product_ids (rng.item_product_choice o.order_id j)
      let base_price := product_price product_rows product_id
      let quantity : ℕ := pyChoices [1, 2, 3, 4, 5] [60, 25, 10, 3, 2]
        (rng.item_quantity_choice o.order_id j)
      let unit_price := base_price * rng.item_price_jitter o.order_id j
      let dpda : ℚ × ℚ :=
        if rng.item_discount_roll o.order_id j < 3/20 then
          let dp : ℚ := pyChoice [5, 10, 15, 20, 25] (rng.item_discount_choice o.order_id j)
          (dp, unit_price * (quantity : ℚ) * dp / 100)
        else (0, 0)
      let total_amount := unit_price * (quantity : ℚ) - dpda.2
      { order_id := o.order_id, store_id := o.store_id, product_id := product_id,
        quantity := quantity, unit_price := unit_price, discount_percent := dpda.1,
        discount_amount := dpda.2, total_amount := total_amount }))
  (orders, items)

/-- The populated database state after a full legacy generation run. -/
structure Database where
  stores : List StoreRow
  categories : List CategoryRow
  product_types : List ProductTypeRow
  customers : List CustomerRow
  products : List ProductRow
  embeddings : List EmbeddingRow
  inventory : List InventoryRow
  orders : List OrderRow
  order_items : List OrderItemRow
deriving DecidableEq

/-- `generate_sqlite_database`: the ordered legacy pipeline against a
fresh storage file (stores → categories → types → customers → products →
embeddings (clear-then-populate) → inventory → orders). -/
def generate_sqlite_database (stores_cfg : List StoreConfig)
    (main_categories : MainCategories) (rng : RandomState)
    (num_customers : ℕ) : Database :=
  let store_rows := insert_stores stores_cfg
  let categories := insert_categories main_categories
  let product_types := insert_product_types main_categories categories
  let customers := insert_customers stores_cfg store_rows rng num_customers
  let products := insert_products main_categories categories product_types
  let embeddings := populate_product_description_embeddings main_categories products true []
  let inventory := insert_inventory store_rows products rng
  let oi := insert_orders rng num_customers products stores_cfg store_rows
  { stores := store_rows, categories := categories, product_types := product_types,
    customers := customers, products := products, embeddings := embeddings,
    inventory := inventory, orders := oi.1, order_items := oi.2 }

/-- The report printed by `show_database_stats`. -/
structure StatsReport where
  customers : ℕ
  products : ℕ
  embeddings : ℕ
  orders : ℕ
  order_items : ℕ
  total_revenue : ℚ
  avg_order_value : Option ℚ
  orders_per_customer : Option ℚ
  items_per_order : Option ℚ
deriving DecidableEq

/-- `show_database_stats`: read-only aggregates; `SUM(total_amount)` is
`NULL` on an empty table (`or 0`); the three ratios are computed only when
`orders > 0`, each with Python division (`none` = `ZeroDivisionError`
propagates). -/
def show_database_stats (db : Database) : Option StatsReport :=
  let customers := db.customers.length
  let products := db.products.length
  let embeddings := db.embeddings.length
  let orders := db.orders.length
  let order_items := db.order_items.length
  let total_revenue := (db.order_items.map (·.total_amount)).sum
  if orders > 0 then
    match pydiv total_revenue orders, pydiv (orders : ℚ) customers,
        pydiv (order_items : ℚ) orders with
    | some a, some b, some c =>
      some { customers := customers, products := products, embeddings := embeddings,
             orders := orders, order_items := order_items,
             total_revenue := total_revenue, avg_order_value := some a,
             orders_per_customer := some b, items_per_order := some c }
    | _, _, _ => none
  else
    some { customers := customers, products := products, embeddings := embeddings,
           orders := orders, order_items := order_items,
           total_revenue := total_revenue, avg_order_value := none,
           orders_per_customer := none, items_per_order := none }

end dataprep

namespace datagen

/-- The report printed by the ORM variant's `show_statistics`: table
counts, and a revenue section shown only when the SQL `SUM` aggregate is
truthy. No Python-level division occurs in this variant (the average is
the SQL `AVG` aggregate), so the function is total: it returns `some`
report for every database state. -/
structure StatsReport where
  stores : ℕ
  categories : ℕ
  product_types : ℕ
  products : ℕ
  suppliers : ℕ
  customers : ℕ
  orders : ℕ
  order_items : ℕ
  inventory : ℕ
  revenue_section : Option (ℚ × ℚ)
deriving DecidableEq

/-- `show_statistics` of the ORM variant, under the same
failure-propagating `Option` semantics as the legacy reporter. -/
def show_statistics (db : Database) : Option StatsReport :=
  let total := (db.order_items.map (·.total_amount)).sum
  some { stores := db.stores.length, categories := db.categories.length,
         product_types := db.product_types.length, products := db.products.length,
         suppliers := db.suppliers.length, customers := db.customers.length,
         orders := db.orders.length, order_items := db.order_items.length,
         inventory := db.inventory.length,
         revenue_section :=
           if db.order_items = [] ∨ total = 0 then none
           else some (total, total / db.order_items.length) }

end datagen

namespace dataprep

/-- The number of catalog entries carrying a description embedding (the
count Scenario D compares the embeddings table against). -/
def entriesWithEmbedding (main_categories : MainCategories) : ℕ :=
  (main_categories.bind (fun cs => cs.2.bind (fun sd =>
    match sd.2 with
    | SubcatData.products l => l.filter (fun p => p.description_embedding.isSome)
    | SubcatData.multipliers _ => []))).length

end dataprep

namespace datagen

/-- P1, restricted to the four row kinds the claim names: every foreign
key of every Product, Inventory, Order, and OrderItem row resolves to an
existing row of the referenced table. -/
def referentialIntegrity (db : Database) : Prop :=
  (∀ p ∈ db.products,
    (∃ c ∈ db.categories, c.category_id = p.category_id) ∧
    (∃ t ∈ db.product_types, t.type_id = p.type_id) ∧
    (∃ s ∈ db.suppliers, s.supplier_id = p.supplier_id)) ∧
  (∀ i ∈ db.inventory,
    (∃ s ∈ db.stores, s.store_id = i.store_id) ∧
    (∃ p ∈ db.products, p.product_id = i.product_id)) ∧
  (∀ o ∈ db.orders,
    (∃ c ∈ db.customers, c.customer_id = o.customer_id) ∧
    (∃ s ∈ db.stores, s.store_id = o.store_id)) ∧
  (∀ it ∈ db.order_items,
    (∃ o ∈ db.orders, o.order_id = it.order_id) ∧
    (∃ s ∈ db.stores, s.store_id = it.store_id) ∧
    (∃ p ∈ db.products, p.product_id = it.product_id))

end datagen

namespace dataprep

/-- P1 for the legacy variant (the legacy store references are nullable
columns; resolution here also asserts they are non-null). -/
def referentialIntegrity (db : Database) : Prop :=
  (∀ p ∈ db.products,
    (∃ c ∈ db.categories, c.category_id = p.category_id) ∧
    (∃ t ∈ db.product_types, t.type_id = p.type_id)) ∧
  (∀ i ∈ db.inventory,
    (∃ s ∈ db.stores, s.store_id = i.store_id) ∧
    (∃ p ∈ db.products, p.product_id = i.product_id)) ∧
  (∀ o ∈ db.orders,
    (∃ c ∈ db.customers, c.customer_id = o.customer_id) ∧
    (∃ s ∈ db.stores, o.store_id = some s.store_id)) ∧
  (∀ it ∈ db.order_items,
    (∃ o ∈ db.orders, o.order_id = it.order_id) ∧
    (∃ s ∈ db.stores, it.store_id = some s.store_id) ∧
    (∃ p ∈ db.products, p.product_id = it.product_id))

end dataprep

/-! ## Concrete fixtures used to instantiate the theorems -/

/-- A constant random oracle for evaluating concrete ORM runs. -/
def rng0 : datagen.RandomState where
  customer_draw := fun _ => { first_name := "Ann", last_name := "Lee", store_choice := 0 }
  order_customer_choice := fun _ => 0
  order_store_choice := fun _ => 0
  item_store_choice := fun _ => 0
  item_count := fun _ => 0
  item_product_choice := fun _ _ => 0
  item_quantity := fun _ _ => 2
  item_discount_choice := fun _ _ => 4
  perf_count := fun _ => 0
  perf_draws := fun _ _ =>
    { base_cost := 4, base_quality := 4, base_delivery := 4, base_compliance := 4,
      jit_cost := 0, jit_quality := 0, jit_delivery := 0, jit_compliance := 0 }

/-- A constant random oracle for evaluating concrete legacy runs; its price
jitter is 1.0123 and its discount roll never triggers a discount. -/
def rngL : dataprep.RandomState where
  customer_first := fun _ => "Ann"
  customer_last := fun _ => "Lee"
  customer_store_choice := fun _ => 0
  stock_draw := fun _ _ => 0
  order_count_choice := fun _ => 1
  order_store_choice := fun _ _ => 0
  item_count_choice := fun _ => 0
  item_product_choice := fun _ _ => 0
  item_quantity_choice := fun _ _ => 0
  item_price_jitter := fun _ _ => 10123/10000
  item_discount_roll := fun _ _ => 1
  item_discount_choice := fun _ _ => 0

def storeCfgA : StoreConfig :=
  { store_name := "A", rls_user_id := "u", is_online := false,
    customer_distribution_weight := 1, product_skus := some ["X"] }

def entryX : CatalogEntry :=
  { sku := "X", name := "Widget", category := "c", subcategory := "s", price := 10,
    description := "d", supplier_id := 1, stock_level := some 7,
    minimum_order_quantity := none, image_embedding := none,
    description_embedding := none }

def supplier1 : SupplierEntry :=
  { supplier_id := 1, supplier_name := "S", lead_time_days := 5 }

def storeRow1 : StoreRow :=
  { store_id := 1, store_name := "A", rls_user_id := "u", is_online := false }

def custRow1 : datagen.CustomerRow :=
  { customer_id := 1, email := "ann.lee.1@example.com", primary_store_id := 1 }

def prodRow1 : datagen.ProductRow :=
  { product_id := 1, sku := "X", category_id := 1, type_id := 1, supplier_id := 1,
    cost := 67/10, base_price := 10 }

def storeCfgL : dataprep.StoreConfig :=
  { store_name := "A", rls_user_id := "u", customer_distribution_weight := 1 }

def prodRowL : dataprep.ProductRow :=
  { product_id := 1, sku := "X", product_name := "Widget", category_id := 1,
    type_id := 1, cost := 1, base_price := 1 }

/-- A database state with one order and no customers (reachable by running
`--show-stats` against an arbitrary storage file). -/
def dbOrderNoCustomer : dataprep.Database :=
  { stores := [storeRow1], categories := [], product_types := [], customers := [],
    products := [], embeddings := [], inventory := [],
    orders := [{ order_id := 1, customer_id := 1, store_id := some 1 }],
    order_items := [] }

/-! ## Generic lemmas about the modelling combinators -/

theorem snd_mem_of_mem_enumFrom {x : α} {i j : ℕ} {xs : List α}
    (h : (i, x) ∈ List.enumFrom j xs) : x ∈ xs := by
  induction xs generalizing j with
  | nil => simp [List.enumFrom] at h
  | cons a l ih =>
    simp only [List.enumFrom, List.mem_cons, Prod.mk.injEq] at h
    rcases h with ⟨_, rfl⟩ | h
    · exact List.mem_cons_self _ _
    · exact List.mem_cons_of_mem _ (ih h)

theorem pyChoice_mem [Inhabited α] (l : List α) (r : ℕ) (h : l ≠ []) :
    pyChoice l r ∈ l := by
  have hlen : 0 < l.length := List.length_pos.mpr h
  have hlt : r % l.length < l.length := Nat.mod_lt _ hlen
  rw [pyChoice, List.getD_eq_getElem l default hlt]
  exact List.getElem_mem hlt

theorem pyChoices_mem [Inhabited α] (l : List α) (w : List ℚ) (r : ℕ) (h : l ≠ []) :
    pyChoices l w r ∈ l := by
  have hlen : 0 < l.length := List.length_pos.mpr h
  have hlt : r % l.length < l.length := Nat.mod_lt _ hlen
  rw [pyChoices, List.getD_eq_getElem l default hlt]
  exact List.getElem_mem hlt

theorem pyRandint_le (lo hi r : ℕ) : lo ≤ pyRandint lo hi r :=
  Nat.le_add_right _ _

theorem pyRandint_le_of_le (lo hi r : ℕ) (h : lo ≤ hi) : pyRandint lo hi r ≤ hi := by
  have hpos : 0 < hi + 1 - lo := by omega
  have := Nat.mod_lt r hpos
  unfold pyRandint
  omega

theorem mem_sortInsert (le : α → α → Bool) (a x : α) (l : List α) :
    x ∈ sortInsert le a l ↔ x = a ∨ x ∈ l := by
  induction l with
  | nil => simp [sortInsert]
  | cons b l ih =>
    by_cases h : le a b = true
    · simp only [sortInsert, if_pos h, List.mem_cons]
    · simp only [sortInsert, if_neg h, List.mem_cons, ih]
      tauto

theorem mem_pySorted (le : α → α → Bool) (x : α) (l : List α) :
    x ∈ pySorted le l ↔ x ∈ l := by
  induction l with
  | nil => simp [pySorted]
  | cons a l ih => simp [pySorted, mem_sortInsert, List.mem_cons, ih]


theorem takeWhile_eq_self_of_forall {p : α → Bool} {xs : List α} (h : ∀ a ∈ xs, p a) :
    xs.takeWhile p = xs := by
  induction xs with
  | nil => rfl
  | cons a l ih =>
    rw [List.takeWhile_cons_of_pos (h a (List.mem_cons_self a l)),
      ih (fun c hc => h c (List.mem_cons_of_mem a hc))]

theorem takeWhile_append_of_forall {p : α → Bool} {xs : List α} (ys : List α)
    (h : ∀ a ∈ xs, p a) : (xs ++ ys).takeWhile p = xs ++ ys.takeWhile p := by
  induction xs with
  | nil => rfl
  | cons a l ih =>
    rw [List.cons_append, List.takeWhile_cons_of_pos (h a (List.mem_cons_self a l)),
      ih (fun c hc => h c (List.mem_cons_of_mem a hc)), List.cons_append]

theorem mem_enumFrom_of_mem {a : α} {l : List α} (h : a ∈ l) (n : ℕ) :
    ∃ i, (i, a) ∈ List.enumFrom n l := by
  induction l generalizing n with
  | nil => cases h
  | cons b t ih =>
    rcases List.mem_cons.mp h with rfl | ht
    · exact ⟨n, List.mem_cons_self _ _⟩
    · obtain ⟨i, hi⟩ := ih ht (n + 1)
      exact ⟨i, List.mem_cons_of_mem _ hi⟩

/-- In a list whose keys are distinct, `find?` by the key of a member
returns exactly that member. -/
theorem find?_key_unique [DecidableEq β] (key : α → β) {l : List α}
    (hnd : (l.map key).Nodup) {a : α} (ha : a ∈ l) :
    l.find? (fun x => key x = key a) = some a := by
  induction l with
  | nil => cases ha
  | cons b t ih =>
    simp only [List.map_cons, List.nodup_cons] at hnd
    rcases List.mem_cons.mp ha with rfl | hat
    · exact List.find?_cons_of_pos _ (by simp)
    · have hne : ¬(key b = key a) := fun he => hnd.1 (he ▸ List.mem_map_of_mem key hat)
      rw [List.find?_cons_of_neg _ (by simpa using hne)]
      exact ih hnd.2 hat

/-- Reversed-list version, for lookups modelling Python dicts. -/
theorem find?_reverse_key_unique [DecidableEq β] (key : α → β) {l : List α}
    (hnd : (l.map key).Nodup) {a : α} (ha : a ∈ l) :
    l.reverse.find? (fun x => key x = key a) = some a := by
  have hnd2 : (l.reverse.map key).Nodup := by
    rw [List.map_reverse, List.nodup_reverse]; exact hnd
  exact find?_key_unique key hnd2 (List.mem_reverse.mpr ha)

theorem headI_mem [Inhabited α] {l : List α} (h : l ≠ []) : l.headI ∈ l := by
  cases l with
  | nil => exact absurd rfl h
  | cons a t => exact List.mem_cons_self a t

/-! ## Decimal representations and the email datatype -/

theorem charToDigit_digitChar {d : ℕ} (h : d < 10) : charToDigit (digitChar d) = d := by
  interval_cases d <;> rfl

theorem digitChar_isDigit {d : ℕ} (h : d < 10) : (digitChar d).isDigit = true := by
  interval_cases d <;> rfl

theorem decimalChars_isDigit (n : ℕ) : ∀ c ∈ decimalChars n, c.isDigit = true := by
  intro c hc
  unfold decimalChars at hc
  by_cases h : n = 0
  · rw [if_pos h] at hc
    simp only [List.mem_singleton] at hc
    subst hc; rfl
  · rw [if_neg h, List.mem_reverse] at hc
    obtain ⟨d, hd, rfl⟩ := List.mem_map.mp hc
    exact digitChar_isDigit (Nat.digits_lt_base (by norm_num) hd)

theorem natOfChars_decimalChars (n : ℕ) :
    Nat.ofDigits 10 (((decimalChars n).reverse).map charToDigit) = n := by
  unfold decimalChars
  by_cases h : n = 0
  · subst h; rfl
  · rw [if_neg h, List.reverse_reverse, List.map_map]
    have hmap : (Nat.digits 10 n).map (charToDigit ∘ digitChar) = (Nat.digits 10 n).map id := by
      apply List.map_congr_left
      intro d hd
      exact charToDigit_digitChar (Nat.digits_lt_base (by norm_num) hd)
    rw [hmap, List.map_id, Nat.ofDigits_digits]

theorem decimalChars_injective : Function.Injective decimalChars := by
  intro m n h
  have hm := natOfChars_decimalChars m
  rw [h, natOfChars_decimalChars] at hm
  exact hm.symm

theorem digitSuffix_append (B d : List Char) (hd : ∀ c ∈ d, c.isDigit = true) :
    digitSuffix (B ++ '.' :: d) = d := by
  unfold digitSuffix
  rw [List.reverse_append, List.reverse_cons, List.append_assoc]
  rw [takeWhile_append_of_forall _ (fun c hc => hd c (List.mem_reverse.mp hc))]
  rw [show ['.'] ++ B.reverse = '.' :: B.reverse from rfl,
    List.takeWhile_cons_of_neg (by decide), List.append_nil, List.reverse_reverse]

theorem data_mkString (l : List Char) : (String.mk l).data = l := rfl

theorem digits_segment_eq {A1 B1 A2 B2 d1 d2 S : List Char}
    (hd1 : ∀ c ∈ d1, c.isDigit = true) (hd2 : ∀ c ∈ d2, c.isDigit = true)
    (h : A1 ++ '.' :: (B1 ++ '.' :: (d1 ++ S)) = A2 ++ '.' :: (B2 ++ '.' :: (d2 ++ S))) :
    d1 = d2 := by
  have h2 : (((A1 ++ '.' :: B1) ++ '.' :: d1) ++ S) = (((A2 ++ '.' :: B2) ++ '.' :: d2) ++ S) := by
    simpa [List.append_assoc] using h
  have h3 := List.append_cancel_right h2
  have h4 := congrArg digitSuffix h3
  rwa [digitSuffix_append _ _ hd1, digitSuffix_append _ _ hd2] at h4

/-- The customer email embeds the running sequence number `i` as the final
dot-separated token before `@example.com`; this recovers `i` regardless of
the name parts, so distinct sequence numbers give distinct emails. -/
theorem mkEmail_seq_injective (f1 l1 f2 l2 : String) (i j : ℕ)
    (h : datagen.mkEmail f1 l1 i = datagen.mkEmail f2 l2 j) : i = j := by
  have hd := congrArg String.data h
  simp only [datagen.mkEmail, natStr, String.data_append, data_mkString,
    List.append_assoc] at hd
  simp only [List.singleton_append] at hd
  exact decimalChars_injective
    (digits_segment_eq (decimalChars_isDigit i) (decimalChars_isDigit j) hd)

/-! ## C3: order-item total amounts -/

set_option maxRecDepth 4000 in
/-- C3 counterexample: in the legacy orders stage
(`generate_zava_sqlite.py`, `insert_orders`), an item with
`unit_price = 1 * 1.0123`, `quantity = 1` and no discount is stored with
`total_amount = 1.0123`, which differs from
`round(unit_price*quantity - discount_amount, 2) = 1.01`; so the claimed
equation does not hold for rows of that stage. -/
theorem C3_counterexample :
    ¬ (∀ it ∈ (dataprep.insert_orders rngL 1 [prodRowL] [storeCfgL] [storeRow1]).2,
        it.total_amount = round2 (it.unit_price * it.quantity - it.discount_amount)) := by
  simp only [dataprep.insert_orders, dataprep.weighted_store_choice, dataprep.store_lookup,
    dataprep.product_price, rngL, pyChoice, pyChoices, pyRandint, storeCfgL, prodRowL, storeRow1,
    List.range', List.range, List.range.loop, List.enumFrom, List.map, List.bind, List.find?,
    List.reverse, List.getD, List.get?, List.join, List.append]
  norm_num [round2, roundHalfEven]
  norm_num [Int.fract]

/-- C3 (amended): every OrderItem row of the ORM orders stage satisfies
`total_amount = round(unit_price*quantity - discount_amount, 2)`; every
row of the legacy orders stage satisfies the exact, unrounded equation
`total_amount = unit_price*quantity - discount_amount`; and the Scenario C
instance (`unit_price = 10.00`, `quantity = 3`, `discount_percent = 10`
yields `discount_amount = 3.00`, `total_amount = 27.00`) is realized by
the ORM stage. -/
theorem C3_order_item_total_amount :
    (∀ (rng : datagen.RandomState) (customers : List datagen.CustomerRow)
        (stores_in_db : List StoreRow) (products_in_db : List datagen.ProductRow)
        (num_orders : ℕ) (it : datagen.OrderItemRow),
        it ∈ (datagen.insert_orders_and_items rng customers stores_in_db
            products_in_db num_orders).2 →
        it.total_amount = round2 (it.unit_price * it.quantity - it.discount_amount)) ∧
    (∀ (rng : dataprep.RandomState) (num_customers : ℕ)
        (product_rows : List dataprep.ProductRow) (stores : List dataprep.StoreConfig)
        (store_rows : List StoreRow) (it : dataprep.OrderItemRow),
        it ∈ (dataprep.insert_orders rng num_customers product_rows stores store_rows).2 →
        it.total_amount = it.unit_price * it.quantity - it.discount_amount) ∧
    (∃ it ∈ (datagen.insert_orders_and_items rng0 [custRow1] [storeRow1] [prodRow1] 1).2,
        it.unit_price = 10 ∧ it.quantity = 3 ∧ it.discount_percent = 10 ∧
        it.discount_amount = 3 ∧ it.total_amount = 27) := by
  refine ⟨?_, ?_, ?_⟩
  · intro rng customers stores_in_db products_in_db num_orders it hit
    obtain ⟨oid, _, hit2⟩ := List.mem_bind.mp hit
    obtain ⟨j, _, rfl⟩ := List.mem_map.mp hit2
    rfl
  · intro rng num_customers product_rows stores store_rows it hit
    obtain ⟨o, _, hit2⟩ := List.mem_bind.mp hit
    obtain ⟨j, _, rfl⟩ := List.mem_map.mp hit2
    rfl
  · simp only [datagen.insert_orders_and_items, rng0, pyChoice, pyRandint, custRow1,
      storeRow1, prodRow1, List.range, List.range.loop, List.map, List.bind, List.join,
      List.append, List.getD, List.get?, List.mem_singleton]
    norm_num [round2, roundHalfEven]

/-- C3 witness: the universally quantified ORM part of the theorem applied
to a concrete membership. -/
theorem C3_witness :
    ∀ it ∈ (datagen.insert_orders_and_items rng0 [custRow1] [storeRow1] [prodRow1] 1).2,
      it.total_amount = round2 (it.unit_price * it.quantity - it.discount_amount) :=
  fun it hit =>
    C3_order_item_total_amount.1 rng0 [custRow1] [storeRow1] [prodRow1] 1 it hit

/-! ## C5: product pricing -/

/-- Every tuple collected by the legacy products stage comes from a
catalog iteration entry, stores the JSON price as cost, and derives
`base_price = round(price / 0.67, 2)`. -/
theorem mem_collectProducts {mc : dataprep.MainCategories} {cats : List CategoryRow}
    {pts : List ProductTypeRow} {t : String × String × ℕ × ℕ × ℚ × ℚ}
    (ht : t ∈ dataprep.collectProducts mc cats pts) :
    ∃ csp ∈ dataprep.productIteration mc, ∃ cid tid,
      datagen.category_mapping cats csp.1 = some cid ∧
      datagen.type_mapping pts cid csp.2.1 = some tid ∧
      t.2.2.1 = cid ∧ t.2.2.2.1 = tid ∧
      t.2.2.2.2.1 = csp.2.2.price ∧
      t.2.2.2.2.2 = round2 (csp.2.2.price / (67/100)) := by
  have aux : ∀ (l : List (String × String × dataprep.LegacyProduct)),
      (∀ x ∈ l, x ∈ dataprep.productIteration mc) →
      ∀ (acc : List (String × String × ℕ × ℕ × ℚ × ℚ)),
      (∀ t2 ∈ acc, ∃ csp ∈ dataprep.productIteration mc, ∃ cid tid,
        datagen.category_mapping cats csp.1 = some cid ∧
        datagen.type_mapping pts cid csp.2.1 = some tid ∧
        t2.2.2.1 = cid ∧ t2.2.2.2.1 = tid ∧
        t2.2.2.2.2.1 = csp.2.2.price ∧
        t2.2.2.2.2.2 = round2 (csp.2.2.price / (67/100))) →
      ∀ t2 ∈ l.foldl (dataprep.collectStep cats pts) acc,
        ∃ csp ∈ dataprep.productIteration mc, ∃ cid tid,
          datagen.category_mapping cats csp.1 = some cid ∧
          datagen.type_mapping pts cid csp.2.1 = some tid ∧
          t2.2.2.1 = cid ∧ t2.2.2.2.1 = tid ∧
          t2.2.2.2.2.1 = csp.2.2.price ∧
          t2.2.2.2.2.2 = round2 (csp.2.2.price / (67/100)) := by
    intro l
    induction l with
    | nil => intro _ acc hacc t2 ht2; exact hacc t2 ht2
    | cons c rest ih =>
      intro hsub acc hacc t2 ht2
      rw [List.foldl_cons] at ht2
      refine ih (fun x hx => hsub x (List.mem_cons_of_mem c hx))
        (dataprep.collectStep cats pts acc c) ?_ t2 ht2
      intro t3 ht3
      unfold dataprep.collectStep at ht3
      cases hcm : datagen.category_mapping cats c.1 with
      | none => rw [hcm] at ht3; exact hacc t3 ht3
      | some cid =>
        rw [hcm] at ht3
        dsimp only at ht3
        cases htm : datagen.type_mapping pts cid c.2.1 with
        | none => rw [htm] at ht3; exact hacc t3 ht3
        | some tid =>
          rw [htm] at ht3
          dsimp only at ht3
          rcases List.mem_append.mp ht3 with h3 | h3
          · exact hacc t3 h3
          · rcases List.mem_singleton.mp h3 with rfl
            exact ⟨c, hsub c (List.mem_cons_self c rest), cid, tid, hcm, htm,
              rfl, rfl, rfl, rfl⟩
  exact aux (dataprep.productIteration mc) (fun x hx => hx) [] (fun t2 ht2 => absurd ht2 (List.not_mem_nil t2)) t ht

/-- C5 counterexample: in the ORM products stage a catalog price of 10.01
yields stored `cost = round(10.01 * 0.67, 2) = 6.71`, which differs from
`price * 0.67 = 6.7067`; and in the legacy products stage a catalog price
of 10 is stored as COST with `base_price = round(10 / 0.67, 2) = 14.93`,
which differs from the catalog price. -/
theorem C5_counterexample :
    (∃ p ∈ datagen.insert_products
        [{ entryX with price := 1001/100 }]
        (datagen.insert_categories [{ entryX with price := 1001/100 }])
        (datagen.insert_product_types [{ entryX with price := 1001/100 }]
          (datagen.insert_categories [{ entryX with price := 1001/100 }])),
      p.base_price = 1001/100 ∧ p.cost ≠ (1001/100) * (67/100)) ∧
    (∃ p ∈ dataprep.insert_products
        [("c", [("s", dataprep.SubcatData.products
          [{ name := "Widget", sku := some "X", price := 10, description := "d",
             description_embedding := none }])])]
        (dataprep.insert_categories
          [("c", [("s", dataprep.SubcatData.products
            [{ name := "Widget", sku := some "X", price := 10, description := "d",
               description_embedding := none }])])])
        (dataprep.insert_product_types
          [("c", [("s", dataprep.SubcatData.products
            [{ name := "Widget", sku := some "X", price := 10, description := "d",
               description_embedding := none }])])]
          (dataprep.insert_categories
            [("c", [("s", dataprep.SubcatData.products
              [{ name := "Widget", sku := some "X", price := 10, description := "d",
                 description_embedding := none }])])])),
      p.cost = 10 ∧ p.base_price ≠ 10) := by
  constructor
  · simp only [datagen.insert_products, datagen.insert_categories,
      datagen.insert_product_types, datagen.resolveProduct, datagen.category_mapping,
      datagen.type_mapping, entryX, pySorted, sortInsert, List.dedup, List.map,
      List.filterMap, List.enumFrom, List.find?, List.reverse, List.mem_singleton,
      List.pwFilter, List.append, List.reverseAux]
    norm_num [round2, roundHalfEven]
  · simp only [dataprep.insert_products, dataprep.insert_categories,
      dataprep.insert_product_types, dataprep.collectProducts, dataprep.collectStep,
      dataprep.productIteration, dataprep.seasonalKey, datagen.category_mapping,
      datagen.type_mapping, List.map, List.filterMap, List.enumFrom, List.find?,
      List.reverse, List.mem_singleton, List.foldl, List.bind, List.join, List.append,
      List.reverseAux]
    norm_num [round2, roundHalfEven]

/-- C5 (amended): for every product row inserted by the ORM products stage
there is a catalog entry with the same sku such that the stored
`base_price` is the catalog price, the stored cost is
`round(price * 0.67, 2)` (the fixed 33% gross-margin convention, rounded
to cents), and the supplier id is carried through unchanged; the legacy
products stage instead stores the catalog price as COST and derives
`base_price = round(price / 0.67, 2)`. -/
theorem C5_product_cost_margin :
    (∀ (products_list : List CatalogEntry) (categories : List CategoryRow)
        (product_types : List ProductTypeRow) (p : datagen.ProductRow),
        p ∈ datagen.insert_products products_list categories product_types →
        ∃ e ∈ products_list, p.sku = e.sku ∧ p.base_price = e.price ∧
          p.cost = round2 (e.price * (67/100)) ∧ p.supplier_id = e.supplier_id) ∧
    (∀ (mc : dataprep.MainCategories) (categories : List CategoryRow)
        (product_types : List ProductTypeRow) (p : dataprep.ProductRow),
        p ∈ dataprep.insert_products mc categories product_types →
        ∃ csp ∈ dataprep.productIteration mc,
          p.cost = csp.2.2.price ∧ p.base_price = round2 (csp.2.2.price / (67/100))) := by
  constructor
  · intro products_list categories product_types p hp
    unfold datagen.insert_products at hp
    obtain ⟨⟨i, tup⟩, hmem, rfl⟩ := List.mem_map.mp hp
    have htup := snd_mem_of_mem_enumFrom hmem
    obtain ⟨e, he, hres⟩ := List.mem_filterMap.mp htup
    refine ⟨e, he, ?_⟩
    unfold datagen.resolveProduct at hres
    cases hcm : datagen.category_mapping categories e.category with
    | none => rw [hcm] at hres; cases hres
    | some cid =>
      rw [hcm] at hres
      dsimp only at hres
      cases htm : datagen.type_mapping product_types cid e.subcategory with
      | none => rw [htm] at hres; cases hres
      | some tid =>
        rw [htm] at hres
        dsimp only at hres
        cases hres
        exact ⟨rfl, rfl, rfl, rfl⟩
  · intro mc categories product_types p hp
    unfold dataprep.insert_products at hp
    obtain ⟨⟨i, tup⟩, hmem, rfl⟩ := List.mem_map.mp hp
    have htup := snd_mem_of_mem_enumFrom hmem
    obtain ⟨csp, hcsp, _, _, _, _, _, _, hcost, hbase⟩ := mem_collectProducts htup
    exact ⟨csp, hcsp, hcost, hbase⟩

/-- C5 witness: the ORM part of the theorem applied to the concrete
single-entry catalog. -/
theorem C5_witness :
    ∀ p ∈ datagen.insert_products [entryX] (datagen.insert_categories [entryX])
        (datagen.insert_product_types [entryX] (datagen.insert_categories [entryX])),
      ∃ e ∈ [entryX], p.sku = e.sku ∧ p.base_price = e.price ∧
        p.cost = round2 (e.price * (67/100)) ∧ p.supplier_id = e.supplier_id :=
  fun p hp => C5_product_cost_margin.1 [entryX] _ _ p hp

/-! ## C6: supplier performance evaluations -/

theorem clampScore_bounds (q : ℚ) : 1 ≤ datagen.clampScore q ∧ datagen.clampScore q ≤ 5 := by
  unfold datagen.clampScore
  constructor
  · exact le_max_left 1 _
  · exact max_le (by norm_num) (min_le_left 5 q)

/-- Every performance row of a supplier list carries one of its supplier
ids. -/
theorem perf_row_supplier (l : List SupplierRow) (rng : datagen.RandomState) :
    ∀ row ∈ datagen.insert_supplier_performance l rng,
      ∃ s ∈ l, row.supplier_id = s.supplier_id := by
  intro row hrow
  obtain ⟨s, hs, hrow2⟩ := List.mem_bind.mp hrow
  obtain ⟨m, _, rfl⟩ := List.mem_map.mp hrow2
  exact ⟨s, hs, rfl⟩

/-- With distinct supplier ids, the number of performance rows for a
supplier equals its own `randint(3, 7)` draw. -/
theorem perf_filter_length (suppliers : List SupplierRow) (rng : datagen.RandomState)
    (hnd : (suppliers.map (·.supplier_id)).Nodup) {s : SupplierRow} (hs : s ∈ suppliers) :
    ((datagen.insert_supplier_performance suppliers rng).filter
      (·.supplier_id = s.supplier_id)).length =
    pyRandint 3 7 (rng.perf_count s.supplier_id) := by
  induction suppliers with
  | nil => cases hs
  | cons b t ih =>
    have hperf : datagen.insert_supplier_performance (b :: t) rng =
        (List.range (pyRandint 3 7 (rng.perf_count b.supplier_id))).map
          (fun m => datagen.mkSupplierPerformance b.supplier_id (rng.perf_draws b.supplier_id m))
        ++ datagen.insert_supplier_performance t rng := rfl
    simp only [List.map_cons, List.nodup_cons] at hnd
    rcases List.mem_cons.mp hs with rfl | hst
    · rw [hperf, List.filter_append, List.length_append]
      have h1 : ((List.range (pyRandint 3 7 (rng.perf_count s.supplier_id))).map
          (fun m => datagen.mkSupplierPerformance s.supplier_id
            (rng.perf_draws s.supplier_id m))).filter (·.supplier_id = s.supplier_id) =
          (List.range (pyRandint 3 7 (rng.perf_count s.supplier_id))).map
            (fun m => datagen.mkSupplierPerformance s.supplier_id
              (rng.perf_draws s.supplier_id m)) := by
        rw [List.filter_eq_self]
        intro a ha
        obtain ⟨m, _, rfl⟩ := List.mem_map.mp ha
        simp [datagen.mkSupplierPerformance]
      have h2 : (datagen.insert_supplier_performance t rng).filter
          (·.supplier_id = s.supplier_id) = [] := by
        rw [List.filter_eq_nil]
        intro row hrow
        obtain ⟨s3, hs3, hid⟩ := perf_row_supplier t rng row hrow
        simp only [decide_eq_true_eq]
        intro he
        have h4 : s.supplier_id = s3.supplier_id := by rw [← he, hid]
        have hmem := List.mem_map_of_mem (fun x => x.supplier_id) hs3
        exact hnd.1 (by simpa [← h4] using hmem)
      rw [h1, h2, List.length_map, List.length_range, List.length_nil]
      omega
    · rw [hperf, List.filter_append, List.length_append]
      have h1 : ((List.range (pyRandint 3 7 (rng.perf_count b.supplier_id))).map
          (fun m => datagen.mkSupplierPerformance b.supplier_id
            (rng.perf_draws b.supplier_id m))).filter (·.supplier_id = s.supplier_id) = [] := by
        rw [List.filter_eq_nil]
        intro a ha
        obtain ⟨m, _, rfl⟩ := List.mem_map.mp ha
        simp only [datagen.mkSupplierPerformance, decide_eq_true_eq]
        intro he
        have hmem := List.mem_map_of_mem (fun x => x.supplier_id) hst
        exact hnd.1 (by simpa [← he] using hmem)
      rw [h1, ih hnd.2 hst, List.length_nil]
      omega

/-- C6: every supplier-performance row has its four component scores
clamped into [1.0, 5.0] and an overall score equal to
`0.30*cost + 0.30*quality + 0.25*delivery + 0.15*compliance`; and (with
the distinct supplier ids the suppliers table enforces) each supplier
receives between 3 and 7 evaluations. -/
theorem C6_supplier_performance :
    ∀ (suppliers : List SupplierRow) (rng : datagen.RandomState),
      (∀ row ∈ datagen.insert_supplier_performance suppliers rng,
        (1 ≤ row.cost_score ∧ row.cost_score ≤ 5) ∧
        (1 ≤ row.quality_score ∧ row.quality_score ≤ 5) ∧
        (1 ≤ row.delivery_score ∧ row.delivery_score ≤ 5) ∧
        (1 ≤ row.compliance_score ∧ row.compliance_score ≤ 5) ∧
        row.overall_score = (30/100) * row.cost_score + (30/100) * row.quality_score +
          (25/100) * row.delivery_score + (15/100) * row.compliance_score) ∧
      ((suppliers.map (·.supplier_id)).Nodup →
        ∀ s ∈ suppliers,
          3 ≤ ((datagen.insert_supplier_performance suppliers rng).filter
            (·.supplier_id = s.supplier_id)).length ∧
          ((datagen.insert_supplier_performance suppliers rng).filter
            (·.supplier_id = s.supplier_id)).length ≤ 7) := by
  intro suppliers rng
  constructor
  · intro row hrow
    obtain ⟨s, _, hrow2⟩ := List.mem_bind.mp hrow
    obtain ⟨m, _, rfl⟩ := List.mem_map.mp hrow2
    refine ⟨clampScore_bounds _, clampScore_bounds _, clampScore_bounds _,
      clampScore_bounds _, ?_⟩
    simp only [datagen.mkSupplierPerformance]
    ring
  · intro hnd s hs
    rw [perf_filter_length suppliers rng hnd hs]
    exact ⟨pyRandint_le 3 7 _, pyRandint_le_of_le 3 7 _ (by norm_num)⟩

/-- C6 witness: the theorem applied to a concrete one-supplier table. -/
theorem C6_witness :
    3 ≤ ((datagen.insert_supplier_performance (datagen.insert_suppliers [supplier1]) rng0).filter
      (·.supplier_id = (1 : ℤ))).length ∧
    ((datagen.insert_supplier_performance (datagen.insert_suppliers [supplier1]) rng0).filter
      (·.supplier_id = (1 : ℤ))).length ≤ 7 := by
  have h := (C6_supplier_performance (datagen.insert_suppliers [supplier1]) rng0).2
    (by decide)
    { supplier_id := 1, supplier_name := "S", lead_time_days := 5 }
    (by decide)
  exact h

/-! ## C9: the statistics reporter -/

/-- C9 counterexample: on a database state with a nonzero order count and
zero customers, the legacy reporter computes `orders / customers` and
raises `ZeroDivisionError` — the zero-denominator guard covers only the
order count, so the reporter does not tolerate every database state. -/
theorem C9_counterexample :
    dataprep.show_database_stats dbOrderNoCustomer = none := by
  simp [dataprep.show_database_stats, dbOrderNoCustomer, pydiv]

/-- C9 (amended): the statistics reporters are read-only (modelled as pure
functions of the database state). With zero orders the legacy reporter
skips all three ratios and still reports the table counts and the total
revenue; with a nonzero customer count it never divides by zero; and the
ORM reporter performs no Python-level division at all, so it succeeds on
every database state. -/
theorem C9_statistics_guard :
    (∀ db : dataprep.Database, db.orders = [] →
      dataprep.show_database_stats db = some
        { customers := db.customers.length, products := db.products.length,
          embeddings := db.embeddings.length, orders := db.orders.length,
          order_items := db.order_items.length,
          total_revenue := (db.order_items.map (·.total_amount)).sum,
          avg_order_value := none, orders_per_customer := none,
          items_per_order := none }) ∧
    (∀ db : dataprep.Database, 0 < db.customers.length →
      (dataprep.show_database_stats db).isSome = true) ∧
    (∀ db : datagen.Database, (datagen.show_statistics db).isSome = true) := by
  refine ⟨?_, ?_, ?_⟩
  · intro db h
    unfold dataprep.show_database_stats
    rw [h]
    rfl
  · intro db h
    unfold dataprep.show_database_stats
    by_cases horders : db.orders.length > 0
    · rw [if_pos horders]
      have h1 : pydiv ((db.order_items.map (·.total_amount)).sum) (db.orders.length : ℚ) =
          some ((db.order_items.map (·.total_amount)).sum / (db.orders.length : ℚ)) := by
        unfold pydiv
        rw [if_neg (by positivity)]
      have h2 : pydiv (db.orders.length : ℚ) (db.customers.length : ℚ) =
          some ((db.orders.length : ℚ) / (db.customers.length : ℚ)) := by
        unfold pydiv
        rw [if_neg (by positivity)]
      have h3 : pydiv (db.order_items.length : ℚ) (db.orders.length : ℚ) =
          some ((db.order_items.length : ℚ) / (db.orders.length : ℚ)) := by
        unfold pydiv
        rw [if_neg (by positivity)]
      rw [h1, h2, h3]
      rfl
    · rw [if_neg horders]
      rfl
  · intro db
    rfl

/-- C9 witness: the amended theorem applied at concrete database
states. -/
theorem C9_witness :
    dataprep.show_database_stats
      { stores := [], categories := [], product_types := [], customers := [],
        products := [], embeddings := [], inventory := [], orders := [],
        order_items := [] } = some
      { customers := 0, products := 0, embeddings := 0, orders := 0,
        order_items := 0, total_revenue := 0, avg_order_value := none,
        orders_per_customer := none, items_per_order := none } :=
  C9_statistics_guard.1
    { stores := [], categories := [], product_types := [], customers := [],
      products := [], embeddings := [], inventory := [], orders := [],
      order_items := [] } rfl

/-! ## C10: customer primary-store resolution -/

/-- C10: in the ORM variant every generated customer's primary store
reference is the id of an actual store row whenever the stores table is
nonempty (a failed weighted-choice lookup falls back to the first store);
in the legacy variant the reference is left `None` exactly when the chosen
store name matches no row of the stores table. -/
theorem C10_primary_store_fallback :
    (∀ (stores : List StoreConfig) (stores_in_db : List StoreRow)
        (draws : ℕ → datagen.CustomerDraw) (num_customers : ℕ),
        stores_in_db ≠ [] →
        ∀ c ∈ datagen.insert_customers stores stores_in_db draws num_customers,
          ∃ s ∈ stores_in_db, c.primary_store_id = s.store_id) ∧
    (∀ (stores : List dataprep.StoreConfig) (store_rows : List StoreRow)
        (rng : dataprep.RandomState) (num_customers : ℕ),
        ∀ c ∈ dataprep.insert_customers stores store_rows rng num_customers,
          (c.primary_store_id = none ↔
            ∀ s ∈ store_rows, s.store_name ≠
              dataprep.weighted_store_choice stores
                (rng.customer_store_choice c.customer_id))) := by
  constructor
  · intro stores stores_in_db draws num_customers hne c hc
    obtain ⟨i, _, rfl⟩ := List.mem_map.mp hc
    cases hlook : datagen.store_name_to_id stores_in_db
        (datagen.weighted_store_choice stores (draws i).store_choice) with
    | none =>
      refine ⟨stores_in_db.headI, headI_mem hne, ?_⟩
      show (datagen.store_name_to_id stores_in_db _).getD stores_in_db.headI.store_id = _
      rw [hlook]
      rfl
    | some v =>
      unfold datagen.store_name_to_id at hlook
      obtain ⟨r, hfind⟩ := Option.map_eq_some'.mp hlook
      refine ⟨r, List.mem_reverse.mp (List.mem_of_find?_eq_some hfind.1), ?_⟩
      show (datagen.store_name_to_id stores_in_db _).getD stores_in_db.headI.store_id = _
      unfold datagen.store_name_to_id
      rw [hlook]
      exact hfind.2.symm
  · intro stores store_rows rng num_customers c hc
    obtain ⟨i, _, rfl⟩ := List.mem_map.mp hc
    show dataprep.store_lookup store_rows _ = none ↔ _
    unfold dataprep.store_lookup
    rw [Option.map_eq_none', List.find?_eq_none]
    constructor
    · intro h s hs he
      exact absurd (by simpa using he) (by simpa using h s hs)
    · intro h s hs
      simpa using h s hs

/-- C10 witness: the ORM part of the theorem applied at a concrete
one-store table. -/
theorem C10_witness :
    ∀ c ∈ datagen.insert_customers [storeCfgA] [storeRow1]
        (fun _ => { first_name := "Ann", last_name := "Lee", store_choice := 0 }) 1,
      ∃ s ∈ [storeRow1], c.primary_store_id = s.store_id :=
  fun c hc => C10_primary_store_fallback.1 [storeCfgA] [storeRow1]
    (fun _ => { first_name := "Ann", last_name := "Lee", store_choice := 0 }) 1
    (by decide) c hc

/-! ## C1: deterministic inventory reproducibility -/

/-- C1: the ORM inventory stage is a pure function of the reference data —
two generation runs that differ only in their random draws (and hence in
customers, orders, and supplier evaluations) produce identical joined
`(store_name, sku, stock_level)` inventory signatures, stock levels
included, because the stage reads only the reference stores' sku lists,
the catalog stock-level hints, and the deterministic stores/products
tables. -/
theorem C1_inventory_reproducible :
    ∀ (stores_cfg : List StoreConfig) (products_list : List CatalogEntry)
      (supplier_data : List SupplierEntry) (rng1 rng2 : datagen.RandomState)
      (num_customers num_orders : ℕ),
      (∀ s ∈ stores_cfg, s.product_skus.isSome = true) →
      datagen.inventorySignature
        (datagen.generate_database stores_cfg products_list supplier_data rng1
          num_customers num_orders) =
      datagen.inventorySignature
        (datagen.generate_database stores_cfg products_list supplier_data rng2
          num_customers num_orders) := by
  intro stores_cfg products_list supplier_data rng1 rng2 num_customers num_orders _
  rfl

/-- C1 witness: the theorem applied to a concrete one-store reference set
and two different oracles. -/
theorem C1_witness :
    datagen.inventorySignature
      (datagen.generate_database [storeCfgA] [entryX] [supplier1] rng0 1 1) =
    datagen.inventorySignature
      (datagen.generate_database [storeCfgA] [entryX] [supplier1]
        { rng0 with item_quantity := fun _ _ => 7 } 1 1) :=
  C1_inventory_reproducible [storeCfgA] [entryX] [supplier1] rng0
    { rng0 with item_quantity := fun _ _ => 7 } 1 1
    (by decide)

/-! ## C7: customer email uniqueness -/

/-- C7: for every customer count `n` (and any faker name draws), both
customers stages produce exactly `n` customer rows — no post-hoc
deduplication removes any — and their emails are pairwise distinct,
because each email embeds the running sequence number `i`. -/
theorem C7_email_uniqueness :
    ∀ (num_customers : ℕ),
      (∀ (stores : List StoreConfig) (stores_in_db : List StoreRow)
          (draws : ℕ → datagen.CustomerDraw),
        (datagen.insert_customers stores stores_in_db draws num_customers).length =
          num_customers ∧
        ((datagen.insert_customers stores stores_in_db draws num_customers).map
          (·.email)).Nodup) ∧
      (∀ (stores : List dataprep.StoreConfig) (store_rows : List StoreRow)
          (rng : dataprep.RandomState),
        (dataprep.insert_customers stores store_rows rng num_customers).length =
          num_customers ∧
        ((dataprep.insert_customers stores store_rows rng num_customers).map
          (·.email)).Nodup) := by
  intro num_customers
  constructor
  · intro stores stores_in_db draws
    constructor
    · rw [datagen.insert_customers, List.length_map, List.length_range']
    · rw [datagen.insert_customers, List.map_map]
      apply List.Nodup.map ?_ (List.nodup_range' 1 num_customers)
      intro i j hij
      exact mkEmail_seq_injective _ _ _ _ i j hij
  · intro stores store_rows rng
    constructor
    · rw [dataprep.insert_customers, List.length_map, List.length_range']
    · rw [dataprep.insert_customers, List.map_map]
      apply List.Nodup.map ?_ (List.nodup_range' 1 num_customers)
      intro i j hij
      exact mkEmail_seq_injective _ _ _ _ i j hij

/-! ## C8: embeddings-only repopulation -/

theorem filterMap_length_of_all_some {f : α → Option β} {l : List α}
    (h : ∀ a ∈ l, (f a).isSome = true) : (l.filterMap f).length = l.length := by
  induction l with
  | nil => rfl
  | cons a t ih =>
    cases hfa : f a with
    | none => exact absurd (h a (List.mem_cons_self a t)) (by simp [hfa])
    | some b =>
      rw [List.filterMap_cons_some hfa, List.length_cons, List.length_cons,
        ih (fun x hx => h x (List.mem_cons_of_mem a hx))]

/-- The truthiness filter of the embeddings extraction loses nothing when
every embedding-carrying entry has a nonempty sku and a nonempty
vector. -/
theorem bind_cons (x : α) (xs : List α) (f : α → List β) :
    (x :: xs).bind f = f x ++ xs.bind f := rfl

theorem extract_length_eq {l : List dataprep.LegacyProduct}
    (h : ∀ p ∈ l, p.description_embedding.isSome = true →
      (∃ sku, p.sku = some sku ∧ sku ≠ "") ∧ p.description_embedding ≠ some []) :
    (l.filterMap dataprep.extractEmbedding).length =
    (l.filter (fun p => p.description_embedding.isSome)).length := by
  induction l with
  | nil => rfl
  | cons p t ih =>
    have ht := ih (fun x hx hs => h x (List.mem_cons_of_mem p hx) hs)
    cases hemb : p.description_embedding with
    | none =>
      have h1 : dataprep.extractEmbedding p = none := by
        unfold dataprep.extractEmbedding
        rw [hemb]; cases p.sku <;> rfl
      rw [List.filterMap_cons_none h1,
        List.filter_cons_of_neg (by simp [hemb]), ht]
    | some emb =>
      obtain ⟨⟨sku, hsku, hsne⟩, hene⟩ := h p (List.mem_cons_self p t) (by simp [hemb])
      have hene2 : emb ≠ [] := fun he => hene (by rw [hemb, he])
      have h1 : dataprep.extractEmbedding p = some (sku, emb) := by
        unfold dataprep.extractEmbedding
        rw [hemb, hsku]
        simp [hsne, hene2]
      rw [List.filterMap_cons_some h1,
        List.filter_cons_of_pos (by simp [hemb]),
        List.length_cons, List.length_cons, ht]

/-- Per-category version of the extraction count. -/
theorem subcat_extract_length {l : List (String × dataprep.SubcatData)}
    (h : ∀ sd ∈ l, ∀ pl, sd.2 = dataprep.SubcatData.products pl →
      ∀ p ∈ pl, p.description_embedding.isSome = true →
        (∃ sku, p.sku = some sku ∧ sku ≠ "") ∧ p.description_embedding ≠ some []) :
    (l.bind (fun sd =>
      match sd.2 with
      | dataprep.SubcatData.products pl => pl.filterMap dataprep.extractEmbedding
      | dataprep.SubcatData.multipliers _ => [])).length =
    (l.bind (fun sd =>
      match sd.2 with
      | dataprep.SubcatData.products pl =>
        pl.filter (fun p => p.description_embedding.isSome)
      | dataprep.SubcatData.multipliers _ => [])).length := by
  induction l with
  | nil => rfl
  | cons sd t ih =>
    have ht := ih (fun x hx => h x (List.mem_cons_of_mem sd hx))
    rw [bind_cons, bind_cons, List.length_append, List.length_append, ht]
    congr 1
    cases hsd : sd.2 with
    | products pl =>
      exact extract_length_eq (h sd (List.mem_cons_self sd t) pl hsd)
    | multipliers m => rfl

/-- Catalog-level version of the extraction count. -/
theorem productsWithEmbeddings_length {mc : dataprep.MainCategories}
    (h : ∀ cs ∈ mc, ∀ sd ∈ cs.2, ∀ pl, sd.2 = dataprep.SubcatData.products pl →
      ∀ p ∈ pl, p.description_embedding.isSome = true →
        (∃ sku, p.sku = some sku ∧ sku ≠ "") ∧ p.description_embedding ≠ some []) :
    (dataprep.productsWithEmbeddings mc).length = dataprep.entriesWithEmbedding mc := by
  unfold dataprep.productsWithEmbeddings dataprep.entriesWithEmbedding
  induction mc with
  | nil => rfl
  | cons cs t ih =>
    have ht := ih (fun x hx => h x (List.mem_cons_of_mem cs hx))
    rw [bind_cons, bind_cons, List.length_append, List.length_append, ht]
    congr 1
    exact subcat_extract_length (h cs (List.mem_cons_self cs t))

/-- C8 counterexample: a catalog entry that carries a description
embedding but no `sku` key produces no embeddings row, so after two
clear-then-repopulate calls the table holds zero rows while one catalog
entry carries an embedding. -/
theorem C8_counterexample :
    dataprep.populate_product_description_embeddings
      [("c", [("s", dataprep.SubcatData.products
        [{ name := "W", sku := none, price := 1, description := "d",
           description_embedding := some [1] }])])]
      (dataprep.insert_products
        [("c", [("s", dataprep.SubcatData.products
          [{ name := "W", sku := none, price := 1, description := "d",
             description_embedding := some [1] }])])]
        (dataprep.insert_categories
          [("c", [("s", dataprep.SubcatData.products
            [{ name := "W", sku := none, price := 1, description := "d",
               description_embedding := some [1] }])])])
        (dataprep.insert_product_types
          [("c", [("s", dataprep.SubcatData.products
            [{ name := "W", sku := none, price := 1, description := "d",
               description_embedding := some [1] }])])]
          (dataprep.insert_categories
            [("c", [("s", dataprep.SubcatData.products
              [{ name := "W", sku := none, price := 1, description := "d",
                 description_embedding := some [1] }])])])))
      true
      (dataprep.populate_product_description_embeddings
        [("c", [("s", dataprep.SubcatData.products
          [{ name := "W", sku := none, price := 1, description := "d",
             description_embedding := some [1] }])])]
        (dataprep.insert_products
          [("c", [("s", dataprep.SubcatData.products
            [{ name := "W", sku := none, price := 1, description := "d",
               description_embedding := some [1] }])])]
          (dataprep.insert_categories
            [("c", [("s", dataprep.SubcatData.products
              [{ name := "W", sku := none, price := 1, description := "d",
                 description_embedding := some [1] }])])])
          (dataprep.insert_product_types
            [("c", [("s", dataprep.SubcatData.products
              [{ name := "W", sku := none, price := 1, description := "d",
                 description_embedding := some [1] }])])]
            (dataprep.insert_categories
              [("c", [("s", dataprep.SubcatData.products
                [{ name := "W", sku := none, price := 1, description := "d",
                   description_embedding := some [1] }])])])))
        true []) = [] ∧
    dataprep.entriesWithEmbedding
      [("c", [("s", dataprep.SubcatData.products
        [{ name := "W", sku := none, price := 1, description := "d",
           description_embedding := some [1] }])])] = 1 := by
  constructor
  · rfl
  · rfl

/-- C8 (amended): with `clear_existing = true` the embeddings table after
a repopulation call is exactly the resolvable embedding entries of the
catalog, independent of any prior contents — so a second call is
idempotent and no rows accumulate; the row count equals the number of
catalog entries that carry an embedding AND a truthy sku that matches an
inserted product. -/
theorem C8_embeddings_idempotent :
    (∀ (mc : dataprep.MainCategories) (products : List dataprep.ProductRow)
        (prior : List dataprep.EmbeddingRow),
      dataprep.populate_product_description_embeddings mc products true prior =
        dataprep.resolvedEmbeddings mc products) ∧
    (∀ (mc : dataprep.MainCategories) (products : List dataprep.ProductRow)
        (prior : List dataprep.EmbeddingRow),
      dataprep.populate_product_description_embeddings mc products true
        (dataprep.populate_product_description_embeddings mc products true prior) =
      dataprep.populate_product_description_embeddings mc products true prior) ∧
    (∀ (mc : dataprep.MainCategories) (products : List dataprep.ProductRow)
        (prior : List dataprep.EmbeddingRow),
      (∀ cs ∈ mc, ∀ sd ∈ cs.2, ∀ pl, sd.2 = dataprep.SubcatData.products pl →
        ∀ p ∈ pl, p.description_embedding.isSome = true →
          (∃ sku, p.sku = some sku ∧ sku ≠ "") ∧ p.description_embedding ≠ some []) →
      (∀ se ∈ dataprep.productsWithEmbeddings mc, ∃ p ∈ products, p.sku = se.1) →
      (dataprep.populate_product_description_embeddings mc products true prior).length =
        dataprep.entriesWithEmbedding mc) := by
  refine ⟨?_, ?_, ?_⟩
  · intro mc products prior
    unfold dataprep.populate_product_description_embeddings
    rw [if_pos rfl, List.nil_append]
  · intro mc products prior
    unfold dataprep.populate_product_description_embeddings
    rw [if_pos rfl, if_pos rfl, List.nil_append]
  · intro mc products prior h1 h2
    unfold dataprep.populate_product_description_embeddings
    rw [if_pos rfl, List.nil_append]
    unfold dataprep.resolvedEmbeddings
    rw [filterMap_length_of_all_some]
    · exact productsWithEmbeddings_length h1
    · intro se hse
      obtain ⟨p, hp, hps⟩ := h2 se hse
      have hfind : (products.find? (·.sku = se.1)).isSome = true :=
        List.find?_isSome.mpr ⟨p, hp, by simpa using hps⟩
      cases hf : products.find? (·.sku = se.1) with
      | none => rw [hf] at hfind; cases hfind
      | some r => simp [hf]

/-- C8 witness: the conditional row-count part of the theorem applied to a
concrete one-entry catalog with a resolvable sku. -/
theorem C8_witness :
    (dataprep.populate_product_description_embeddings
      [("c", [("s", dataprep.SubcatData.products
        [{ name := "W", sku := some "X", price := 1, description := "d",
           description_embedding := some [1] }])])]
      [prodRowL] true []).length =
    dataprep.entriesWithEmbedding
      [("c", [("s", dataprep.SubcatData.products
        [{ name := "W", sku := some "X", price := 1, description := "d",
           description_embedding := some [1] }])])] := by
  refine C8_embeddings_idempotent.2.2 _ [prodRowL] [] ?_ ?_
  · intro cs hcs sd hsd pl hpl p hp hs
    rw [List.mem_singleton.mp hcs] at hsd
    rw [List.mem_singleton.mp hsd] at hpl
    cases hpl
    rw [List.mem_singleton.mp hp]
    exact ⟨⟨"X", rfl, by decide⟩, by simp⟩
  · intro se hse
    refine ⟨prodRowL, List.mem_singleton_self _, ?_⟩
    rcases List.mem_singleton.mp
      (show se ∈ [(("X" : String), ([1] : List ℚ))] from hse) with rfl
    rfl

/-! ## C2: per-store inventory sku sets -/

theorem map_enumFrom_build {β γ : Type _} (mk : ℕ × β → γ) (idOf : γ → ℕ)
    (hid : ∀ p, idOf (mk p) = p.1) (l : List β) (n : ℕ) :
    (List.map mk (List.enumFrom n l)).map idOf = List.range' n l.length := by
  rw [List.map_map]
  have he : idOf ∘ mk = Prod.fst := funext (fun p => hid p)
  rw [he, List.enumFrom_map_fst]

theorem insert_stores_ids (stores_cfg : List StoreConfig) :
    (datagen.insert_stores stores_cfg).map (·.store_id) =
      List.range' 1 stores_cfg.length := by
  unfold datagen.insert_stores
  refine map_enumFrom_build _ _ (fun p => ?_) stores_cfg 1
  rfl

theorem insert_stores_ids_nodup (stores_cfg : List StoreConfig) :
    ((datagen.insert_stores stores_cfg).map (·.store_id)).Nodup := by
  rw [insert_stores_ids]
  exact List.nodup_range' 1 stores_cfg.length

theorem insert_stores_names (stores_cfg : List StoreConfig) :
    (datagen.insert_stores stores_cfg).map (·.store_name) =
      stores_cfg.map (·.store_name) := by
  unfold datagen.insert_stores
  rw [List.map_map]
  have he : ((fun r : StoreRow => r.store_name) ∘ fun p : ℕ × StoreConfig =>
      ({ store_id := p.1, store_name := p.2.store_name, rls_user_id := p.2.rls_user_id,
         is_online := p.2.is_online } : StoreRow)) =
      ((fun sc : StoreConfig => sc.store_name) ∘ Prod.snd) := rfl
  rw [he, ← List.map_map]
  congr 1
  exact List.enumFrom_map_snd 1 stores_cfg

theorem enumFrom_build_ids_nodup {β γ : Type _} (mk : ℕ × β → γ) (idOf : γ → ℕ)
    (hid : ∀ p, idOf (mk p) = p.1) (l : List β) (n : ℕ) :
    ((List.map mk (List.enumFrom n l)).map idOf).Nodup := by
  rw [map_enumFrom_build mk idOf hid l n]
  exact List.nodup_range' n l.length

theorem insert_products_ids_nodup (products_list : List CatalogEntry)
    (categories : List CategoryRow) (product_types : List ProductTypeRow) :
    ((datagen.insert_products products_list categories product_types).map
      (·.product_id)).Nodup := by
  unfold datagen.insert_products
  refine enumFrom_build_ids_nodup _ _ (fun p => ?_) _ 1
  rfl

theorem mem_insert_stores_of_mem {stores_cfg : List StoreConfig} {s : StoreConfig}
    (hs : s ∈ stores_cfg) :
    ∃ r ∈ datagen.insert_stores stores_cfg, r.store_name = s.store_name := by
  obtain ⟨i, hi⟩ := mem_enumFrom_of_mem hs 1
  refine ⟨{ store_id := i, store_name := s.store_name, rls_user_id := s.rls_user_id,
            is_online := s.is_online }, ?_, rfl⟩
  unfold datagen.insert_stores
  exact List.mem_map.mpr ⟨(i, s), hi, rfl⟩

/-- For every catalog entry, the ORM products stage (fed by the category
and type tables derived from the same catalog) inserts a row with that
entry's sku: the category and type lookups always succeed. -/
theorem exists_product_row {products_list : List CatalogEntry} {e : CatalogEntry}
    (he : e ∈ products_list) :
    ∃ p ∈ datagen.insert_products products_list
        (datagen.insert_categories products_list)
        (datagen.insert_product_types products_list
          (datagen.insert_categories products_list)),
      p.sku = e.sku := by
  -- the category lookup succeeds
  have hcat : e.category ∈ pySorted (fun a b => a ≤ b)
      (products_list.map (·.category)).dedup :=
    (mem_pySorted _ _ _).mpr (List.mem_dedup.mpr (List.mem_map_of_mem _ he))
  obtain ⟨i, hi⟩ := mem_enumFrom_of_mem hcat 1
  have hrow : ({ category_id := i, category_name := e.category } : CategoryRow) ∈
      datagen.insert_categories products_list := by
    unfold datagen.insert_categories
    exact List.mem_map.mpr ⟨(i, e.category), hi, rfl⟩
  have hcmIsSome : ((datagen.insert_categories products_list).reverse.find?
      (·.category_name = e.category)).isSome = true :=
    List.find?_isSome.mpr ⟨_, List.mem_reverse.mpr hrow, by simp⟩
  cases hf : (datagen.insert_categories products_list).reverse.find?
      (·.category_name = e.category) with
  | none => rw [hf] at hcmIsSome; cases hcmIsSome
  | some r =>
    have hcm : datagen.category_mapping (datagen.insert_categories products_list)
        e.category = some r.category_id := by
      unfold datagen.category_mapping
      rw [hf]
      rfl
    -- the type lookup succeeds
    have hpair : (e.category, e.subcategory) ∈ pySorted datagen.pairLe
        (products_list.map (fun p => (p.category, p.subcategory))).dedup :=
      (mem_pySorted _ _ _).mpr (List.mem_dedup.mpr (List.mem_map_of_mem _ he))
    have hkept : (r.category_id, e.subcategory) ∈
        (pySorted datagen.pairLe
          (products_list.map (fun p => (p.category, p.subcategory))).dedup).filterMap
          (fun cs => (datagen.category_mapping
            (datagen.insert_categories products_list) cs.1).map
            (fun cid => (cid, cs.2))) := by
      refine List.mem_filterMap.mpr ⟨(e.category, e.subcategory), hpair, ?_⟩
      rw [hcm]
      rfl
    obtain ⟨j, hj⟩ := mem_enumFrom_of_mem hkept 1
    have htrow : ({ type_id := j, category_id := r.category_id,
                    type_name := e.subcategory } : ProductTypeRow) ∈
        datagen.insert_product_types products_list
          (datagen.insert_categories products_list) := by
      unfold datagen.insert_product_types
      exact List.mem_map.mpr ⟨(j, (r.category_id, e.subcategory)), hj, rfl⟩
    have htmIsSome : ((datagen.insert_product_types products_list
        (datagen.insert_categories products_list)).reverse.find?
        (fun t => t.category_id = r.category_id && t.type_name = e.subcategory)).isSome
        = true :=
      List.find?_isSome.mpr ⟨_, List.mem_reverse.mpr htrow, by simp⟩
    cases hg : (datagen.insert_product_types products_list
        (datagen.insert_categories products_list)).reverse.find?
        (fun t => t.category_id = r.category_id && t.type_name = e.subcategory) with
    | none => rw [hg] at htmIsSome; cases htmIsSome
    | some t =>
      have htm : datagen.type_mapping
          (datagen.insert_product_types products_list
            (datagen.insert_categories products_list)) r.category_id e.subcategory =
          some t.type_id := by
        unfold datagen.type_mapping
        rw [hg]
        rfl
      -- the resolution therefore succeeds
      have hres : datagen.resolveProduct (datagen.insert_categories products_list)
          (datagen.insert_product_types products_list
            (datagen.insert_categories products_list)) e =
          some (e.sku, r.category_id, t.type_id, e.supplier_id,
            round2 (e.price * (67/100)), e.price) := by
        unfold datagen.resolveProduct
        rw [hcm]
        dsimp only
        rw [htm]
      have hkeep : (e.sku, r.category_id, t.type_id, e.supplier_id,
          round2 (e.price * (67/100)), e.price) ∈
          products_list.filterMap (datagen.resolveProduct
            (datagen.insert_categories products_list)
            (datagen.insert_product_types products_list
              (datagen.insert_categories products_list))) :=
        List.mem_filterMap.mpr ⟨e, he, hres⟩
      obtain ⟨k, hk⟩ := mem_enumFrom_of_mem hkeep 1
      refine ⟨{ product_id := k, sku := e.sku, category_id := r.category_id,
                type_id := t.type_id, supplier_id := e.supplier_id,
                cost := round2 (e.price * (67/100)), base_price := e.price }, ?_, rfl⟩
      unfold datagen.insert_products
      exact List.mem_map.mpr ⟨(k, (e.sku, r.category_id, t.type_id, e.supplier_id,
        round2 (e.price * (67/100)), e.price)), hk, rfl⟩

/-- C2 counterexample: a store whose assignment list contains a sku
absent from the product catalog gets no inventory row for it — the sku
set actually stocked is not the assignment list. -/
theorem C2_counterexample :
    ¬ ("X" ∈ datagen.storeInventorySkus (datagen.insert_stores [storeCfgA])
        (datagen.insert_products [] (datagen.insert_categories [])
          (datagen.insert_product_types [] (datagen.insert_categories [])))
        (datagen.insert_inventory [storeCfgA] (datagen.insert_stores [storeCfgA])
          (datagen.insert_products [] (datagen.insert_categories [])
            (datagen.insert_product_types [] (datagen.insert_categories [])))
          []) "A") ∧
    "X" ∈ storeCfgA.product_skus.getD [] := by
  constructor
  · decide
  · decide

/-- C2 (amended): for a store with an explicit assignment list, the set of
skus with an inventory row for that store is exactly the skus of its list
that resolve to an inserted product; in particular, when every listed sku
appears in the product catalog (whose entries all resolve), the stocked
sku set is exactly the list. Store names are distinct, as the stores
table's UNIQUE constraint enforces. -/
theorem C2_store_inventory_skus :
    ∀ (stores_cfg : List StoreConfig) (products_list : List CatalogEntry)
      (s : StoreConfig) (skus : List String),
      (stores_cfg.map (·.store_name)).Nodup →
      s ∈ stores_cfg →
      s.product_skus = some skus →
      (∀ sku0 ∈ skus, sku0 ∈ products_list.map (·.sku)) →
      ∀ sku,
        sku ∈ datagen.storeInventorySkus
          (datagen.insert_stores stores_cfg)
          (datagen.insert_products products_list
            (datagen.insert_categories products_list)
            (datagen.insert_product_types products_list
              (datagen.insert_categories products_list)))
          (datagen.insert_inventory stores_cfg
            (datagen.insert_stores stores_cfg)
            (datagen.insert_products products_list
              (datagen.insert_categories products_list)
              (datagen.insert_product_types products_list
                (datagen.insert_categories products_list)))
            products_list)
          s.store_name
        ↔ sku ∈ skus := by
  intro stores_cfg products_list s skus hnames hs hskus hresolve sku
  set SDB := datagen.insert_stores stores_cfg with hSDBdef
  set PDB := datagen.insert_products products_list
    (datagen.insert_categories products_list)
    (datagen.insert_product_types products_list
      (datagen.insert_categories products_list)) with hPDBdef
  have hsdbnames : (SDB.map (·.store_name)).Nodup := by
    rw [hSDBdef, insert_stores_names]; exact hnames
  have hsdbids : (SDB.map (·.store_id)).Nodup := insert_stores_ids_nodup stores_cfg
  have hpdbids : (PDB.map (·.product_id)).Nodup := insert_products_ids_nodup _ _ _
  obtain ⟨rowS, hrowS, hname⟩ := mem_insert_stores_of_mem hs
  have hfindS := find?_reverse_key_unique (fun r : StoreRow => r.store_name)
    hsdbnames hrowS
  simp only [hname] at hfindS
  have hlookS : datagen.store_name_to_id SDB s.store_name = some rowS.store_id := by
    unfold datagen.store_name_to_id
    rw [hfindS]
    rfl
  -- a store configuration whose looked-up id coincides with ours is ours
  have huniq : ∀ s2 ∈ stores_cfg, ∀ sid2,
      datagen.store_name_to_id SDB s2.store_name = some sid2 →
      sid2 = rowS.store_id → s2 = s := by
    intro s2 hs2 sid2 hlook2 heq
    unfold datagen.store_name_to_id at hlook2
    obtain ⟨r2, hr2find, hr2id⟩ := Option.map_eq_some'.mp hlook2
    have hr2mem : r2 ∈ SDB := List.mem_reverse.mp (List.mem_of_find?_eq_some hr2find)
    have hr2name : r2.store_name = s2.store_name := by
      simpa using List.find?_some hr2find
    have hr2eq : r2 = rowS :=
      List.inj_on_of_nodup_map hsdbids hr2mem hrowS (by rw [hr2id, heq])
    have hnameeq : s2.store_name = s.store_name := by
      rw [← hr2name, hr2eq, hname]
    exact List.inj_on_of_nodup_map hnames hs2 hs hnameeq
  unfold datagen.storeInventorySkus
  rw [hlookS]
  dsimp only
  constructor
  · intro hm
    obtain ⟨invrow, hinvfilter, hlookup⟩ := List.mem_filterMap.mp hm
    obtain ⟨hinvmem, hpred⟩ := List.mem_filter.mp hinvfilter
    have hpred2 : invrow.store_id = rowS.store_id := by simpa using hpred
    obtain ⟨s2, hs2, hcontrib⟩ := List.mem_bind.mp hinvmem
    cases hlook2 : datagen.store_name_to_id SDB s2.store_name with
    | none =>
      rw [hlook2] at hcontrib
      cases hcontrib
    | some sid2 =>
      rw [hlook2] at hcontrib
      dsimp only at hcontrib
      obtain ⟨sku0, hsku0, hmk⟩ := List.mem_filterMap.mp hcontrib
      obtain ⟨pid, hpid, hrow⟩ := Option.map_eq_some'.mp hmk
      have hsid2 : sid2 = rowS.store_id := by
        rw [← hrow] at hpred2
        exact hpred2
      have hs2eq : s2 = s := huniq s2 hs2 sid2 hlook2 hsid2
      rw [hs2eq, hskus] at hsku0
      -- recover the sku from the product id
      unfold datagen.sku_to_product_id at hpid
      obtain ⟨rP, hrPfind, hrPid⟩ := Option.map_eq_some'.mp hpid
      have hrPmem : rP ∈ PDB := List.mem_reverse.mp (List.mem_of_find?_eq_some hrPfind)
      have hrPsku : rP.sku = sku0 := by simpa using List.find?_some hrPfind
      obtain ⟨q, hqfind, hqsku⟩ := Option.map_eq_some'.mp hlookup
      have hqmem : q ∈ PDB := List.mem_of_find?_eq_some hqfind
      have hqpid : q.product_id = invrow.product_id := by
        simpa using List.find?_some hqfind
      have hqeq : q = rP := by
        refine List.inj_on_of_nodup_map hpdbids hqmem hrPmem ?_
        rw [hqpid, ← hrow, ← hrPid]
      rw [← hqsku, hqeq, hrPsku]
      exact hsku0
  · intro hsku
    obtain ⟨e, he, hesku⟩ := List.mem_map.mp (hresolve sku hsku)
    obtain ⟨p, hp, hpsku⟩ := exists_product_row he
    have hfindPIsSome : (PDB.reverse.find? (·.sku = sku)).isSome = true :=
      List.find?_isSome.mpr ⟨p, List.mem_reverse.mpr hp, by simp [hpsku, hesku]⟩
    cases hfindP : PDB.reverse.find? (·.sku = sku) with
    | none => rw [hfindP] at hfindPIsSome; cases hfindPIsSome
    | some rP =>
      have hrPmem : rP ∈ PDB := List.mem_reverse.mp (List.mem_of_find?_eq_some hfindP)
      have hrPsku : rP.sku = sku := by simpa using List.find?_some hfindP
      have hpid : datagen.sku_to_product_id PDB sku = some rP.product_id := by
        unfold datagen.sku_to_product_id
        rw [hfindP]
        rfl
      have hinv : ({ store_id := rowS.store_id, product_id := rP.product_id,
                     stock_level := datagen.sku_to_stock_level products_list sku } :
          InventoryRow) ∈
          datagen.insert_inventory stores_cfg SDB PDB products_list := by
        unfold datagen.insert_inventory
        refine List.mem_bind.mpr ⟨s, hs, ?_⟩
        rw [hlookS]
        dsimp only
        rw [hskus]
        refine List.mem_filterMap.mpr ⟨sku, hsku, ?_⟩
        rw [hpid]
        rfl
      refine List.mem_filterMap.mpr
        ⟨{ store_id := rowS.store_id, product_id := rP.product_id,
           stock_level := datagen.sku_to_stock_level products_list sku },
          List.mem_filter.mpr ⟨hinv, by simp⟩, ?_⟩
      have hq := find?_key_unique (fun x : datagen.ProductRow => x.product_id)
        hpdbids hrPmem
      simp only at hq
      rw [show (PDB.find? (·.product_id = rP.product_id)) = some rP from hq]
      simp [hrPsku]

/-- C2 witness: the amended theorem applied to a one-store, one-product
reference set whose listed sku resolves. -/
theorem C2_witness :
    "X" ∈ datagen.storeInventorySkus
      (datagen.insert_stores [storeCfgA])
      (datagen.insert_products [entryX]
        (datagen.insert_categories [entryX])
        (datagen.insert_product_types [entryX] (datagen.insert_categories [entryX])))
      (datagen.insert_inventory [storeCfgA]
        (datagen.insert_stores [storeCfgA])
        (datagen.insert_products [entryX]
          (datagen.insert_categories [entryX])
          (datagen.insert_product_types [entryX]
            (datagen.insert_categories [entryX])))
        [entryX])
      storeCfgA.store_name
    ↔ "X" ∈ ["X"] :=
  C2_store_inventory_skus [storeCfgA] [entryX] storeCfgA ["X"]
    (by decide) (by decide) (by decide) (by decide) "X"

/-! ## C4: referential integrity -/

/-- The category, type and supplier references of every ORM product row
point to rows of the lookup tables (the supplier id is copied verbatim
from the catalog entry). -/
theorem insert_products_fk (products_list : List CatalogEntry)
    (categories : List CategoryRow) (product_types : List ProductTypeRow) :
    ∀ p ∈ datagen.insert_products products_list categories product_types,
      (∃ c ∈ categories, c.category_id = p.category_id) ∧
      (∃ t ∈ product_types, t.type_id = p.type_id) ∧
      (∃ e ∈ products_list, p.supplier_id = e.supplier_id) := by
  intro p hp
  unfold datagen.insert_products at hp
  obtain ⟨⟨i, tup⟩, hmem, rfl⟩ := List.mem_map.mp hp
  have htup := snd_mem_of_mem_enumFrom hmem
  obtain ⟨e, he, hres⟩ := List.mem_filterMap.mp htup
  unfold datagen.resolveProduct at hres
  cases hcm : datagen.category_mapping categories e.category with
  | none => rw [hcm] at hres; cases hres
  | some cid =>
    rw [hcm] at hres
    dsimp only at hres
    cases htm : datagen.type_mapping product_types cid e.subcategory with
    | none => rw [htm] at hres; cases hres
    | some tid =>
      rw [htm] at hres
      dsimp only at hres
      cases hres
      unfold datagen.category_mapping at hcm
      obtain ⟨r, hrfind, hrid⟩ := Option.map_eq_some'.mp hcm
      unfold datagen.type_mapping at htm
      obtain ⟨t, htfind, htid⟩ := Option.map_eq_some'.mp htm
      exact ⟨⟨r, List.mem_reverse.mp (List.mem_of_find?_eq_some hrfind), hrid⟩,
        ⟨t, List.mem_reverse.mp (List.mem_of_find?_eq_some htfind), htid⟩,
        ⟨e, he, rfl⟩⟩

/-- The two references of every ORM inventory row point to rows of the
stores and products tables. -/
theorem insert_inventory_fk (stores_cfg : List StoreConfig)
    (stores_in_db : List StoreRow) (products_in_db : List datagen.ProductRow)
    (products_list : List CatalogEntry) :
    ∀ r ∈ datagen.insert_inventory stores_cfg stores_in_db products_in_db products_list,
      (∃ s ∈ stores_in_db, s.store_id = r.store_id) ∧
      (∃ p ∈ products_in_db, p.product_id = r.product_id) := by
  intro r hr
  obtain ⟨sc, _, hcontrib⟩ := List.mem_bind.mp hr
  cases hlook : datagen.store_name_to_id stores_in_db sc.store_name with
  | none => rw [hlook] at hcontrib; cases hcontrib
  | some sid =>
    rw [hlook] at hcontrib
    dsimp only at hcontrib
    obtain ⟨sku, _, hmk⟩ := List.mem_filterMap.mp hcontrib
    obtain ⟨pid, hpid, hrow⟩ := Option.map_eq_some'.mp hmk
    unfold datagen.store_name_to_id at hlook
    obtain ⟨srow, hsfind, hsid⟩ := Option.map_eq_some'.mp hlook
    unfold datagen.sku_to_product_id at hpid
    obtain ⟨prow, hpfind, hpidr⟩ := Option.map_eq_some'.mp hpid
    subst hrow
    exact ⟨⟨srow, List.mem_reverse.mp (List.mem_of_find?_eq_some hsfind), hsid⟩,
      ⟨prow, List.mem_reverse.mp (List.mem_of_find?_eq_some hpfind), hpidr⟩⟩

/-- The ORM customers stage assigns the running ids `1 .. n`. -/
theorem insert_customers_ids (stores_cfg : List StoreConfig)
    (stores_in_db : List StoreRow) (draws : ℕ → datagen.CustomerDraw) (n : ℕ) :
    (datagen.insert_customers stores_cfg stores_in_db draws n).map (·.customer_id) =
      List.range' 1 n := by
  unfold datagen.insert_customers
  rw [List.map_map]
  exact List.map_id (List.range' 1 n)

/-- The references of every ORM order and order-item row point to rows of
the respective tables, provided the customer, store, and product tables
are nonempty (otherwise `random.choice` raises and the run aborts). -/
theorem insert_orders_and_items_fk (rng : datagen.RandomState)
    (customers : List datagen.CustomerRow) (stores_in_db : List StoreRow)
    (products_in_db : List datagen.ProductRow) (num_orders : ℕ)
    (hc : customers ≠ []) (hs : stores_in_db ≠ []) (hp : products_in_db ≠ []) :
    (∀ o ∈ (datagen.insert_orders_and_items rng customers stores_in_db
        products_in_db num_orders).1,
      (∃ c ∈ customers, c.customer_id = o.customer_id) ∧
      (∃ s ∈ stores_in_db, s.store_id = o.store_id)) ∧
    (∀ it ∈ (datagen.insert_orders_and_items rng customers stores_in_db
        products_in_db num_orders).2,
      (∃ o ∈ (datagen.insert_orders_and_items rng customers stores_in_db
        products_in_db num_orders).1, o.order_id = it.order_id) ∧
      (∃ s ∈ stores_in_db, s.store_id = it.store_id) ∧
      (∃ p ∈ products_in_db, p.product_id = it.product_id)) := by
  have hcids : customers.map (·.customer_id) ≠ [] := by
    intro h
    exact hc (List.map_eq_nil.mp h)
  have hsids : stores_in_db.map (·.store_id) ≠ [] := by
    intro h
    exact hs (List.map_eq_nil.mp h)
  have hpids : products_in_db.map (fun p => (p.product_id, p.base_price)) ≠ [] := by
    intro h
    exact hp (List.map_eq_nil.mp h)
  constructor
  · intro o ho
    obtain ⟨i, _, rfl⟩ := List.mem_map.mp ho
    constructor
    · have hbc := pyChoice_mem (customers.map (·.customer_id))
        (rng.order_customer_choice i) hcids
      obtain ⟨c, hcmem, hcid⟩ := List.mem_map.mp hbc
      exact ⟨c, hcmem, hcid⟩
    · have hbs := pyChoice_mem (stores_in_db.map (·.store_id))
        (rng.order_store_choice i) hsids
      obtain ⟨srow, hsmem, hsid⟩ := List.mem_map.mp hbs
      exact ⟨srow, hsmem, hsid⟩
  · intro it hit
    obtain ⟨oid, hoid, hit2⟩ := List.mem_bind.mp hit
    obtain ⟨j, _, rfl⟩ := List.mem_map.mp hit2
    refine ⟨?_, ?_, ?_⟩
    · obtain ⟨o, homem, hoeq⟩ := List.mem_map.mp hoid
      exact ⟨o, homem, hoeq⟩
    · have hbs := pyChoice_mem (stores_in_db.map (·.store_id))
        (rng.item_store_choice oid) hsids
      obtain ⟨srow, hsmem, hsid⟩ := List.mem_map.mp hbs
      exact ⟨srow, hsmem, hsid⟩
    · have hbp := pyChoice_mem (products_in_db.map (fun p => (p.product_id, p.base_price)))
        (rng.item_product_choice oid j) hpids
      obtain ⟨prow, hpmem, hpeq⟩ := List.mem_map.mp hbp
      exact ⟨prow, hpmem, by rw [← hpeq]⟩

theorem dataprep_insert_stores_names (stores_cfg : List dataprep.StoreConfig) :
    (dataprep.insert_stores stores_cfg).map (·.store_name) =
      stores_cfg.map (·.store_name) := by
  unfold dataprep.insert_stores
  rw [List.map_map]
  have he : ((fun r : StoreRow => r.store_name) ∘ fun p : ℕ × dataprep.StoreConfig =>
      ({ store_id := p.1, store_name := p.2.store_name, rls_user_id := p.2.rls_user_id,
         is_online := dataprep.isOnlineName p.2.store_name } : StoreRow)) =
      ((fun sc : dataprep.StoreConfig => sc.store_name) ∘ Prod.snd) := rfl
  rw [he, ← List.map_map]
  congr 1
  exact List.enumFrom_map_snd 1 stores_cfg

theorem dataprep_insert_customers_ids (stores_cfg : List dataprep.StoreConfig)
    (store_rows : List StoreRow) (rng : dataprep.RandomState) (n : ℕ) :
    (dataprep.insert_customers stores_cfg store_rows rng n).map (·.customer_id) =
      List.range' 1 n := by
  unfold dataprep.insert_customers
  rw [List.map_map]
  exact List.map_id (List.range' 1 n)

/-- The category and type references of every legacy product row point to
rows of the lookup tables. -/
theorem dataprep_insert_products_fk (mc : dataprep.MainCategories)
    (categories : List CategoryRow) (product_types : List ProductTypeRow) :
    ∀ p ∈ dataprep.insert_products mc categories product_types,
      (∃ c ∈ categories, c.category_id = p.category_id) ∧
      (∃ t ∈ product_types, t.type_id = p.type_id) := by
  intro p hp
  unfold dataprep.insert_products at hp
  obtain ⟨⟨i, tup⟩, hmem, rfl⟩ := List.mem_map.mp hp
  have htup := snd_mem_of_mem_enumFrom hmem
  obtain ⟨csp, _, cid, tid, hcm, htm, hcid, htid, _, _⟩ := mem_collectProducts htup
  unfold datagen.category_mapping at hcm
  obtain ⟨r, hrfind, hrid⟩ := Option.map_eq_some'.mp hcm
  unfold datagen.type_mapping at htm
  obtain ⟨t, htfind, htid2⟩ := Option.map_eq_some'.mp htm
  constructor
  · exact ⟨r, List.mem_reverse.mp (List.mem_of_find?_eq_some hrfind),
      by rw [hrid, ← hcid]⟩
  · exact ⟨t, List.mem_reverse.mp (List.mem_of_find?_eq_some htfind),
      by rw [htid2, ← htid]⟩

/-- Both references of every legacy inventory row point to rows of the
stores and products tables (the stage is a cross product of the two). -/
theorem dataprep_insert_inventory_fk (store_rows : List StoreRow)
    (product_rows : List dataprep.ProductRow) (rng : dataprep.RandomState) :
    ∀ r ∈ dataprep.insert_inventory store_rows product_rows rng,
      (∃ s ∈ store_rows, s.store_id = r.store_id) ∧
      (∃ p ∈ product_rows, p.product_id = r.product_id) := by
  intro r hr
  obtain ⟨srow, hsmem, hr2⟩ := List.mem_bind.mp hr
  obtain ⟨prow, hpmem, rfl⟩ := List.mem_map.mp hr2
  exact ⟨⟨srow, hsmem, rfl⟩, ⟨prow, hpmem, rfl⟩⟩

/-- The store lookup of the legacy orders stage succeeds and lands in the
stores table whenever the reference set is nonempty and the stores table
was built from it. -/
theorem dataprep_store_lookup_mem (stores_cfg : List dataprep.StoreConfig)
    (hne : stores_cfg ≠ []) (r : ℕ) :
    ∃ srow ∈ dataprep.insert_stores stores_cfg,
      dataprep.store_lookup (dataprep.insert_stores stores_cfg)
        (dataprep.weighted_store_choice stores_cfg r) = some srow.store_id := by
  have hnames : stores_cfg.map (·.store_name) ≠ [] := by
    intro h
    exact hne (List.map_eq_nil.mp h)
  have hchoice := pyChoices_mem (stores_cfg.map (·.store_name))
    (stores_cfg.map (·.customer_distribution_weight)) r hnames
  have hchoice2 : dataprep.weighted_store_choice stores_cfg r ∈
      (dataprep.insert_stores stores_cfg).map (·.store_name) := by
    rw [dataprep_insert_stores_names]
    exact hchoice
  obtain ⟨srow, hsmem, hsname⟩ := List.mem_map.mp hchoice2
  have hfindIsSome : ((dataprep.insert_stores stores_cfg).find?
      (·.store_name = dataprep.weighted_store_choice stores_cfg r)).isSome = true :=
    List.find?_isSome.mpr ⟨srow, hsmem, by simp [hsname]⟩
  cases hf : (dataprep.insert_stores stores_cfg).find?
      (·.store_name = dataprep.weighted_store_choice stores_cfg r) with
  | none => rw [hf] at hfindIsSome; cases hfindIsSome
  | some found =>
    refine ⟨found, List.mem_of_find?_eq_some hf, ?_⟩
    unfold dataprep.store_lookup
    rw [hf]
    rfl

/-- The references of every legacy order and order-item row point to rows
of the customers (ids `1 .. n`), stores, orders, and products tables. -/
theorem dataprep_insert_orders_fk (rng : dataprep.RandomState) (num_customers : ℕ)
    (product_rows : List dataprep.ProductRow) (stores_cfg : List dataprep.StoreConfig)
    (hne : stores_cfg ≠ []) (hp : product_rows ≠ []) :
    (∀ o ∈ (dataprep.insert_orders rng num_customers product_rows stores_cfg
        (dataprep.insert_stores stores_cfg)).1,
      (o.customer_id ∈ List.range' 1 num_customers) ∧
      (∃ s ∈ dataprep.insert_stores stores_cfg, o.store_id = some s.store_id)) ∧
    (∀ it ∈ (dataprep.insert_orders rng num_customers product_rows stores_cfg
        (dataprep.insert_stores stores_cfg)).2,
      (∃ o ∈ (dataprep.insert_orders rng num_customers product_rows stores_cfg
        (dataprep.insert_stores stores_cfg)).1, o.order_id = it.order_id) ∧
      (∃ s ∈ dataprep.insert_stores stores_cfg, it.store_id = some s.store_id) ∧
      (∃ p ∈ product_rows, p.product_id = it.product_id)) := by
  have hofk : ∀ o ∈ (dataprep.insert_orders rng num_customers product_rows stores_cfg
      (dataprep.insert_stores stores_cfg)).1,
      (o.customer_id ∈ List.range' 1 num_customers) ∧
      (∃ s ∈ dataprep.insert_stores stores_cfg, o.store_id = some s.store_id) := by
    intro o ho
    obtain ⟨⟨i, ck⟩, hmem, rfl⟩ := List.mem_map.mp ho
    have hck := snd_mem_of_mem_enumFrom hmem
    obtain ⟨cid, hcid, hck2⟩ := List.mem_bind.mp hck
    obtain ⟨k, _, rfl⟩ := List.mem_map.mp hck2
    constructor
    · exact hcid
    · exact dataprep_store_lookup_mem stores_cfg hne _
  refine ⟨hofk, ?_⟩
  intro it hit
  obtain ⟨o, homem, hit2⟩ := List.mem_bind.mp hit
  obtain ⟨j, _, rfl⟩ := List.mem_map.mp hit2
  have hpids : product_rows.map (·.product_id) ≠ [] := by
    intro h
    exact hp (List.map_eq_nil.mp h)
  refine ⟨⟨o, homem, rfl⟩, (hofk o homem).2, ?_⟩
  have hbp := pyChoice_mem (product_rows.map (·.product_id))
    (rng.item_product_choice o.order_id j) hpids
  obtain ⟨prow, hpmem, hpeq⟩ := List.mem_map.mp hbp
  exact ⟨prow, hpmem, hpeq⟩

/-- C4 counterexample: a catalog entry whose supplier id (999) appears in
no supplier document yields a product row whose supplier reference
resolves to no row of the suppliers table — SQLite does not enforce
foreign keys by default, so the row is inserted and P1 fails. -/
theorem C4_counterexample :
    ¬ datagen.referentialIntegrity
      (datagen.generate_database [storeCfgA] [{ entryX with supplier_id := 999 }]
        [] rng0 1 0) := by
  intro h
  obtain ⟨hprod, -, -, -⟩ := h
  have hp : ({ product_id := 1, sku := "X", category_id := 1, type_id := 1,
               supplier_id := 999,
               cost := round2 ((10 : ℚ) * (67/100)), base_price := (10 : ℚ) } :
      datagen.ProductRow) ∈
      (datagen.generate_database [storeCfgA] [{ entryX with supplier_id := 999 }]
        [] rng0 1 0).products := by
    simp only [datagen.generate_database, datagen.insert_products,
      datagen.insert_categories, datagen.insert_product_types,
      datagen.resolveProduct, datagen.category_mapping, datagen.type_mapping,
      entryX, pySorted, sortInsert, List.dedup, List.map, List.filterMap,
      List.enumFrom, List.find?, List.reverse, List.reverseAux, List.pwFilter,
      List.append]
    simp
  obtain ⟨srow, hsrow, -⟩ := (hprod _ hp).2.2
  simp only [datagen.generate_database, datagen.insert_suppliers, List.map_nil] at hsrow
  exact List.not_mem_nil srow hsrow

/-- C4 (amended): after a full generation run from an empty storage file —
with nonempty reference stores and catalog, at least one customer, and
every catalog supplier id present in the supplier document — every foreign
key of every Product, Inventory, Order, and OrderItem row resolves to an
inserted row; in particular every OrderItem's order id is the primary key
of an inserted Order. The same holds for the legacy pipeline (which has no
supplier references). Without the supplier-coverage assumption, a product
row's supplier reference can dangle. -/
theorem C4_referential_integrity :
    (∀ (stores_cfg : List StoreConfig) (products_list : List CatalogEntry)
        (supplier_data : List SupplierEntry) (rng : datagen.RandomState)
        (num_customers num_orders : ℕ),
        stores_cfg ≠ [] → products_list ≠ [] → 1 ≤ num_customers →
        (∀ e ∈ products_list, ∃ se ∈ supplier_data, se.supplier_id = e.supplier_id) →
        datagen.referentialIntegrity
          (datagen.generate_database stores_cfg products_list supplier_data rng
            num_customers num_orders)) ∧
    (∀ (stores_cfg : List dataprep.StoreConfig) (mc : dataprep.MainCategories)
        (rng : dataprep.RandomState) (num_customers : ℕ),
        stores_cfg ≠ [] →
        dataprep.insert_products mc (dataprep.insert_categories mc)
          (dataprep.insert_product_types mc (dataprep.insert_categories mc)) ≠ [] →
        dataprep.referentialIntegrity
          (dataprep.generate_sqlite_database stores_cfg mc rng num_customers)) := by
  constructor
  · intro stores_cfg products_list supplier_data rng num_customers num_orders
      hcfg hpl hn hsup
    have hstores : datagen.insert_stores stores_cfg ≠ [] := by
      intro h
      apply hcfg
      have := congrArg List.length h
      rw [datagen.insert_stores, List.length_map, List.enumFrom_length] at this
      exact List.length_eq_zero.mp this
    have hcust : datagen.insert_customers stores_cfg
        (datagen.insert_stores stores_cfg) rng.customer_draw num_customers ≠ [] := by
      intro h
      have hl := congrArg List.length (insert_customers_ids stores_cfg
        (datagen.insert_stores stores_cfg) rng.customer_draw num_customers)
      rw [List.length_map, List.length_range'] at hl
      rw [h] at hl
      simp at hl
      omega
    have hprods : datagen.insert_products products_list
        (datagen.insert_categories products_list)
        (datagen.insert_product_types products_list
          (datagen.insert_categories products_list)) ≠ [] := by
      obtain ⟨e, he⟩ := List.exists_mem_of_ne_nil products_list hpl
      obtain ⟨p, hp, -⟩ := exists_product_row he
      exact List.ne_nil_of_mem hp
    have hoi := insert_orders_and_items_fk rng
      (datagen.insert_customers stores_cfg (datagen.insert_stores stores_cfg)
        rng.customer_draw num_customers)
      (datagen.insert_stores stores_cfg)
      (datagen.insert_products products_list
        (datagen.insert_categories products_list)
        (datagen.insert_product_types products_list
          (datagen.insert_categories products_list)))
      num_orders hcust hstores hprods
    refine ⟨?_, ?_, ?_, ?_⟩
    · intro p hp
      obtain ⟨hcat, htyp, e, he, hesup⟩ := insert_products_fk _ _ _ p hp
      refine ⟨hcat, htyp, ?_⟩
      obtain ⟨se, hse, hseid⟩ := hsup e he
      refine ⟨{ supplier_id := se.supplier_id, supplier_name := se.supplier_name,
                lead_time_days := se.lead_time_days }, ?_, ?_⟩
      · exact List.mem_map.mpr ⟨se, hse, rfl⟩
      · rw [hesup, ← hseid]
    · intro i hi
      exact insert_inventory_fk _ _ _ _ i hi
    · intro o ho
      exact hoi.1 o ho
    · intro it hit
      exact hoi.2 it hit
  · intro stores_cfg mc rng num_customers hcfg hprods
    have hoi := dataprep_insert_orders_fk rng num_customers
      (dataprep.insert_products mc (dataprep.insert_categories mc)
        (dataprep.insert_product_types mc (dataprep.insert_categories mc)))
      stores_cfg hcfg hprods
    refine ⟨?_, ?_, ?_, ?_⟩
    · intro p hp
      exact dataprep_insert_products_fk _ _ _ p hp
    · intro i hi
      exact dataprep_insert_inventory_fk _ _ _ i hi
    · intro o ho
      obtain ⟨hcid, hstore⟩ := hoi.1 o ho
      refine ⟨?_, hstore⟩
      have hcmem : o.customer_id ∈ (dataprep.insert_customers stores_cfg
          (dataprep.insert_stores stores_cfg) rng num_customers).map
          (·.customer_id) := by
        rw [dataprep_insert_customers_ids]
        exact hcid
      obtain ⟨c, hcmem2, hceq⟩ := List.mem_map.mp hcmem
      exact ⟨c, hcmem2, hceq⟩
    · intro it hit
      exact hoi.2 it hit

/-- C4 witness: the theorem applied to concrete reference sets that
satisfy every hypothesis. -/
theorem C4_witness :
    datagen.referentialIntegrity
      (datagen.generate_database [storeCfgA] [entryX] [supplier1] rng0 1 1) ∧
    dataprep.referentialIntegrity
      (dataprep.generate_sqlite_database [storeCfgL]
        [("c", [("s", dataprep.SubcatData.products
          [{ name := "W", sku := some "X", price := 1, description := "d",
             description_embedding := none }])])] rngL 1) := by
  constructor
  · exact C4_referential_integrity.1 [storeCfgA] [entryX] [supplier1] rng0 1 1
      (by decide) (by decide) (by decide)
      (fun e he => ⟨supplier1, List.mem_singleton_self _, by
        rcases List.mem_singleton.mp he with rfl
        rfl⟩)
  · exact C4_referential_integrity.2 [storeCfgL] _ rngL 1 (by decide) (by decide)
